import Mathlib

/-!
Shallow embedding of the SCP-firmware sensor-manager module
(`src/module/sensor_manager/src/mod_sensor_manager.c` and its header
`mod_sensor_manager.h`), together with proofs of the specified properties.

Modelling conventions:
* C `unsigned int` / `uint32_t` values are `Nat`; the hardware register read
  is an environment-supplied value truncated to 32 bits.
* `fwk_id_t` requester identities are opaque `Nat`s compared with equality
  (`fwk_id_is_equal`); `FWK_ID_NONE` is `0`.
* Callback function pointers are `Option Nat` (`none` = `NULL`), the `Nat`
  being an opaque identity for the callback.
* The fixed-size registration arrays are `List SensorRegistration` whose
  length equals the configured capacity (established at init, preserved by
  every operation); index order of the list is the ascending slot order of
  the C arrays.
* Callback invocations are recorded in a returned list instead of being
  performed; the interrupt handler returns the machine state plus the list
  of callback invocations it performed.
-/

namespace SensorManager

/-- Framework status codes (`fwk_status.h`) used by the module. -/
inductive FwkStatus
  | SUCCESS
  | E_PARAM
  | E_STATE
  | E_NOMEM
  | E_ACCESS
  | E_DEVICE
  deriving DecidableEq, Repr

/-- Constant `SENSOR_TYPE_COUNT` from `mod_sensor_manager.h`. -/
def SENSOR_TYPE_COUNT : Nat := 3

/-- Constant `DETECTORS_PER_SENSOR` from `mod_sensor_manager.h`. -/
def DETECTORS_PER_SENSOR : Nat := 2

/-- Constant `UINT_MAX`, the wildcard detector id (32-bit `unsigned int`). -/
def UINT_MAX : Nat := 2 ^ 32 - 1

/-- Enumeration `sensor_interrupt_type` from `mod_sensor_manager.h`. -/
inductive SensorInterruptType
  | THRESHOLD_EXCEEDED
  | THRESHOLD_NORMAL
  deriving DecidableEq, Repr

/-- Structure `detector_config` from `mod_sensor_manager.h`. -/
structure DetectorConfig where
  reg_base : Nat
  irq : Nat
  enabled : Bool
  threshold_low : Nat
  threshold_high : Nat
  threshold_enabled : Bool
  deriving DecidableEq, Repr

/-- Structure `sensor_registration` from `mod_sensor_manager.c`. -/
structure SensorRegistration where
  callback : Option Nat
  requester_id : Nat
  detector_id : Nat
  active : Bool
  deriving DecidableEq, Repr

/-- A zeroed registration slot, as produced by `fwk_mm_calloc` and by the
clearing code in `unregister_notification` (callback `NULL`, requester
`FWK_ID_NONE`, detector id `0`, inactive). -/
def emptyRegistration : SensorRegistration :=
  { callback := none, requester_id := 0, detector_id := 0, active := false }

/-- Structure `detector_context` from `mod_sensor_manager.c`. -/
structure DetectorContext where
  config : DetectorConfig
  registrations : List SensorRegistration
  active_count : Nat
  max_registrations : Nat
  current_value : Nat
  previous_value : Nat
  enabled : Bool
  is_in_normal_range : Bool
  deriving DecidableEq, Repr

/-- Structure `sensor_context` from `mod_sensor_manager.c`. -/
structure SensorContext where
  detectors : List DetectorContext
  global_registrations : List SensorRegistration
  global_active_count : Nat
  max_global_registrations : Nat
  deriving DecidableEq, Repr

/-- Structure `mod_sensor_manager_config` from `mod_sensor_manager.h`; each
per-type field is a fixed array of `DETECTORS_PER_SENSOR = 2` configs. -/
structure ModConfig where
  temp_detectors : DetectorConfig × DetectorConfig
  voltage_detectors : DetectorConfig × DetectorConfig
  freq_detectors : DetectorConfig × DetectorConfig
  max_registrations_per_detector : Nat
  deriving DecidableEq, Repr

/-- The mutable module context `sensor_manager_ctx` (the `sensors` array). -/
structure SensorManagerCtx where
  sensors : List SensorContext
  deriving DecidableEq, Repr

/-- Indexing a two-element config array. -/
def cfg_get (p : DetectorConfig × DetectorConfig) (d : Nat) : DetectorConfig :=
  if d = 0 then p.1 else p.2

/-- The detector config table selected by the `switch (type)` in
`sensor_manager_init`. -/
def configOf (mc : ModConfig) (t d : Nat) : DetectorConfig :=
  cfg_get
    (if t = 0 then mc.temp_detectors
     else if t = 1 then mc.voltage_detectors
     else mc.freq_detectors) d

def defaultConfig : DetectorConfig :=
  { reg_base := 0, irq := 0, enabled := false,
    threshold_low := 0, threshold_high := 0, threshold_enabled := false }

def defaultDetector : DetectorContext :=
  { config := defaultConfig, registrations := [], active_count := 0,
    max_registrations := 0, current_value := 0, previous_value := 0,
    enabled := false, is_in_normal_range := true }

def defaultSensor : SensorContext :=
  { detectors := [], global_registrations := [],
    global_active_count := 0, max_global_registrations := 0 }

/-- Access `sensor_manager_ctx.sensors[type]`. -/
def getSensor (st : SensorManagerCtx) (t : Nat) : SensorContext :=
  st.sensors.getD t defaultSensor

/-- Access `sensor_manager_ctx.sensors[type].detectors[detector_id]`. -/
def getDetector (st : SensorManagerCtx) (t d : Nat) : DetectorContext :=
  (getSensor st t).detectors.getD d defaultDetector

def setSensor (st : SensorManagerCtx) (t : Nat) (sc : SensorContext) :
    SensorManagerCtx :=
  { st with sensors := st.sensors.set t sc }

def setDetector (st : SensorManagerCtx) (t d : Nat) (dc : DetectorContext) :
    SensorManagerCtx :=
  setSensor st t
    { getSensor st t with detectors := (getSensor st t).detectors.set d dc }

/-- Function `read_sensor_register`: a volatile 32-bit register read.  The hardware
value is supplied by the environment; the cast to `uint32_t` is the
truncation. -/
def read_sensor_register (hw : Nat) : Nat := hw % 2 ^ 32

/-- Function `is_value_in_normal_range` (mod_sensor_manager.c:109). -/
def is_value_in_normal_range (value : Nat) (config : DetectorConfig) : Bool :=
  if !config.threshold_enabled then
    true
  else
    decide (config.threshold_low ≤ value ∧ value ≤ config.threshold_high)

/-- Function `determine_interrupt_type` (mod_sensor_manager.c:118). -/
def determine_interrupt_type (current_value : Nat) (was_in_normal_range : Bool)
    (config : DetectorConfig) : SensorInterruptType :=
  let is_now_in_normal_range := is_value_in_normal_range current_value config
  if !config.threshold_enabled then
    .THRESHOLD_NORMAL
  else if was_in_normal_range && !is_now_in_normal_range then
    .THRESHOLD_EXCEEDED
  else if !was_in_normal_range && is_now_in_normal_range then
    .THRESHOLD_NORMAL
  else if is_now_in_normal_range then
    .THRESHOLD_NORMAL
  else
    .THRESHOLD_EXCEEDED

/-- Test `fwk_id_is_equal(reg->requester_id, requester_id) && reg->active`, the
match test used by the registration scans. -/
def reg_matches (requester_id : Nat) (reg : SensorRegistration) : Bool :=
  reg.active && reg.requester_id == requester_id

/-- The "check if already registered" scan of `register_notification`. -/
def find_active_requester (tbl : List SensorRegistration) (r : Nat) : Bool :=
  tbl.any (reg_matches r)

/-- The slot contents written by the "find empty slot" branch of
`register_notification`: callback, requester, detector id, active. -/
def newRegistration (cb : Option Nat) (r det : Nat) : SensorRegistration :=
  { callback := cb, requester_id := r, detector_id := det, active := true }

/-- The "find empty slot" first-fit scan of `register_notification`:
fill the first inactive slot, or `none` when every slot is active. -/
def fill_first_free (tbl : List SensorRegistration) (cb : Option Nat)
    (r det : Nat) : Option (List SensorRegistration) :=
  match tbl with
  | [] => none
  | reg :: rest =>
    if !reg.active then
      some (newRegistration cb r det :: rest)
    else
      (fill_first_free rest cb r det).map (reg :: ·)

/-- The clearing scan of `unregister_notification`: find the first active
slot matching the requester and reset it to the zeroed slot. -/
def clear_first_match (tbl : List SensorRegistration) (r : Nat) :
    Option (List SensorRegistration) :=
  match tbl with
  | [] => none
  | reg :: rest =>
    if reg_matches r reg then
      some (emptyRegistration :: rest)
    else
      (clear_first_match rest r).map (reg :: ·)

/-- The per-table body of `register_notification` (both the global and the
per-detector branch run exactly this on their table). -/
def table_register (tbl : List SensorRegistration) (cb : Option Nat)
    (r det : Nat) : FwkStatus × List SensorRegistration :=
  if find_active_requester tbl r then
    (.E_STATE, tbl)
  else
    match fill_first_free tbl cb r det with
    | some tbl' => (.SUCCESS, tbl')
    | none => (.E_NOMEM, tbl)

/-- The per-table body of `unregister_notification`. -/
def table_unregister (tbl : List SensorRegistration) (r : Nat) :
    FwkStatus × List SensorRegistration :=
  match clear_first_match tbl r with
  | some tbl' => (.SUCCESS, tbl')
  | none => (.E_ACCESS, tbl)

/-- Function `register_notification` (mod_sensor_manager.c:276).  Returns the status
and the module context after the call. -/
def register_notification (type detector_id : Nat) (callback : Option Nat)
    (requester_id : Nat) (st : SensorManagerCtx) :
    FwkStatus × SensorManagerCtx :=
  if SENSOR_TYPE_COUNT ≤ type ∨ callback = none then
    (.E_PARAM, st)
  else if detector_id ≠ UINT_MAX ∧ DETECTORS_PER_SENSOR ≤ detector_id then
    (.E_PARAM, st)
  else if detector_id = UINT_MAX then
    let sc := getSensor st type
    let res := table_register sc.global_registrations callback requester_id
      UINT_MAX
    if res.1 = .SUCCESS then
      (res.1, setSensor st type
        { sc with
          global_registrations := res.2,
          global_active_count := sc.global_active_count + 1 })
    else
      (res.1, st)
  else
    let dc := getDetector st type detector_id
    let res := table_register dc.registrations callback requester_id
      detector_id
    if res.1 = .SUCCESS then
      (res.1, setDetector st type detector_id
        { dc with
          registrations := res.2,
          active_count := dc.active_count + 1 })
    else
      (res.1, st)

/-- Function `unregister_notification` (mod_sensor_manager.c:378). -/
def unregister_notification (type detector_id requester_id : Nat)
    (st : SensorManagerCtx) : FwkStatus × SensorManagerCtx :=
  if SENSOR_TYPE_COUNT ≤ type then
    (.E_PARAM, st)
  else if detector_id ≠ UINT_MAX ∧ DETECTORS_PER_SENSOR ≤ detector_id then
    (.E_PARAM, st)
  else if detector_id = UINT_MAX then
    let sc := getSensor st type
    let res := table_unregister sc.global_registrations requester_id
    if res.1 = .SUCCESS then
      (res.1, setSensor st type
        { sc with
          global_registrations := res.2,
          global_active_count := sc.global_active_count - 1 })
    else
      (res.1, st)
  else
    let dc := getDetector st type detector_id
    let res := table_unregister dc.registrations requester_id
    if res.1 = .SUCCESS then
      (res.1, setDetector st type detector_id
        { dc with
          registrations := res.2,
          active_count := dc.active_count - 1 })
    else
      (res.1, st)

/-- Function `get_sensor_value` (mod_sensor_manager.c:448).  `value_null` models a
`NULL` output pointer; the returned `Option Nat` is what the call wrote
through the pointer (`none` = nothing written).  The C function never
mutates the module context, so the context is not threaded through. -/
def get_sensor_value (type detector_id : Nat) (value_null : Bool)
    (st : SensorManagerCtx) : FwkStatus × Option Nat :=
  if SENSOR_TYPE_COUNT ≤ type ∨ DETECTORS_PER_SENSOR ≤ detector_id ∨
      value_null = true then
    (.E_PARAM, none)
  else
    let dc := getDetector st type detector_id
    if !dc.enabled then
      (.E_DEVICE, none)
    else
      (.SUCCESS, some dc.current_value)

/-- One callback invocation performed by `notify_registered_modules`:
the callback identity, the five arguments it receives. -/
structure Invocation where
  callback : Option Nat
  type : Nat
  detector_id : Nat
  interrupt_type : SensorInterruptType
  value : Nat
  requester_id : Nat
  deriving DecidableEq, Repr

/-- One pass of the notification loops: every slot (in ascending index
order) that is active with a non-`NULL` callback yields one invocation. -/
def table_invocations (tbl : List SensorRegistration) (type det : Nat)
    (it : SensorInterruptType) (value : Nat) : List Invocation :=
  tbl.filterMap (fun reg =>
    if reg.active && reg.callback.isSome then
      some { callback := reg.callback, type := type, detector_id := det,
             interrupt_type := it, value := value,
             requester_id := reg.requester_id }
    else
      none)

/-- Function `notify_registered_modules` (mod_sensor_manager.c:166): the
detector-specific loop, then the global (wildcard) loop. -/
def notify_registered_modules (st : SensorManagerCtx) (type detector_id : Nat)
    (it : SensorInterruptType) (value : Nat) : List Invocation :=
  table_invocations (getDetector st type detector_id).registrations type
      detector_id it value ++
    table_invocations (getSensor st type).global_registrations type
      detector_id it value

/-- The scan order of `get_sensor_and_detector_from_irq`: all sensor types,
and within a type all detectors, in ascending order. -/
def irq_scan_pairs : List (Nat × Nat) :=
  (List.range SENSOR_TYPE_COUNT).flatMap
    (fun t => (List.range DETECTORS_PER_SENSOR).map (fun d => (t, d)))

/-- Function `get_sensor_and_detector_from_irq` (mod_sensor_manager.c:144): first
(type, detector) whose config matches the IRQ.  (After init every
detector context has a config, so the C `config != NULL` guard always
passes.) -/
def get_sensor_and_detector_from_irq (st : SensorManagerCtx) (irq : Nat) :
    Option (Nat × Nat) :=
  irq_scan_pairs.find? (fun p => (getDetector st p.1 p.2).config.irq == irq)

/-- The per-detector body of `sensor_interrupt_handler`
(mod_sensor_manager.c:237-266): record previous value, store the new
sample, recompute the range flag, and dispatch iff threshold monitoring
is disabled or the range flag changed.  Returns the updated detector
context and `some interrupt_type` iff `notify_registered_modules` is
invoked. -/
def detector_sample (dc : DetectorContext) (value : Nat) :
    DetectorContext × Option SensorInterruptType :=
  let was_in_normal_range := dc.is_in_normal_range
  let is_now := is_value_in_normal_range value dc.config
  let dc' := { dc with
    previous_value := dc.current_value,
    current_value := value,
    is_in_normal_range := is_now }
  let it := determine_interrupt_type value was_in_normal_range dc.config
  if !dc.config.threshold_enabled || (was_in_normal_range != is_now) then
    (dc', some it)
  else
    (dc', none)

/-- Iterated interrupt-driven sampling of one detector: feed a sequence of
already-truncated hardware values through `detector_sample`, collecting
the dispatched notifications in order. -/
def run_samples : DetectorContext → List Nat →
    DetectorContext × List SensorInterruptType
  | dc, [] => (dc, [])
  | dc, v :: vs =>
    let r1 := detector_sample dc v
    let r2 := run_samples r1.1 vs
    (r2.1, r1.2.toList ++ r2.2)

/-- Function `sensor_interrupt_handler` (mod_sensor_manager.c:216) servicing IRQ
`irq`, with `hw` the raw value presented by the hardware register.
Returns the module context after the handler and the list of callback
invocations it performed. -/
def sensor_interrupt_handler (st : SensorManagerCtx) (irq hw : Nat) :
    SensorManagerCtx × List Invocation :=
  match get_sensor_and_detector_from_irq st irq with
  | none => (st, [])
  | some (type, detector_id) =>
    let dc := getDetector st type detector_id
    let value := read_sensor_register hw
    let res := detector_sample dc value
    let st' := setDetector st type detector_id res.1
    match res.2 with
    | some it => (st', notify_registered_modules st' type detector_id it value)
    | none => (st', [])

/-- Per-detector context initialization (mod_sensor_manager.c:528-548):
zeroed values, in-range flag `true`, capacity-sized zeroed table. -/
def init_detector (cfg : DetectorConfig) (maxRegs : Nat) : DetectorContext :=
  { config := cfg,
    registrations := List.replicate maxRegs emptyRegistration,
    active_count := 0,
    max_registrations := maxRegs,
    current_value := 0,
    previous_value := 0,
    enabled := cfg.enabled,
    is_in_normal_range := true }

/-- Function `sensor_manager_init` (mod_sensor_manager.c:477): build every sensor
context (the `fwk_mm_calloc` allocations are modelled as always
succeeding). -/
def sensor_manager_init (mc : ModConfig) : SensorManagerCtx :=
  { sensors := (List.range SENSOR_TYPE_COUNT).map (fun t =>
      { detectors := (List.range DETECTORS_PER_SENSOR).map (fun d =>
          init_detector (configOf mc t d) mc.max_registrations_per_detector),
        global_registrations :=
          List.replicate mc.max_registrations_per_detector emptyRegistration,
        global_active_count := 0,
        max_global_registrations := mc.max_registrations_per_detector }) }

/-- The set of IRQ lines live after `sensor_manager_start`
(mod_sensor_manager.c:563): an ISR is installed and the line enabled
exactly for the detectors whose context is enabled. -/
def irq_live (st : SensorManagerCtx) (irq : Nat) : Prop :=
  ∃ t < SENSOR_TYPE_COUNT, ∃ d < DETECTORS_PER_SENSOR,
    (getDetector st t d).enabled = true ∧
    (getDetector st t d).config.irq = irq

/-- Reachable module states: the initialized context, closed under the
facade calls and under interrupts on lines that `sensor_manager_start`
enabled. -/
inductive Reachable (mc : ModConfig) : SensorManagerCtx → Prop
  | init : Reachable mc (sensor_manager_init mc)
  | register (st : SensorManagerCtx) (type detector_id : Nat)
      (callback : Option Nat) (requester_id : Nat) :
      Reachable mc st →
      Reachable mc
        (register_notification type detector_id callback requester_id st).2
  | unregister (st : SensorManagerCtx) (type detector_id requester_id : Nat) :
      Reachable mc st →
      Reachable mc (unregister_notification type detector_id requester_id st).2
  | interrupt (st : SensorManagerCtx) (irq hw : Nat)
      (hlive : irq_live (sensor_manager_init mc) irq) :
      Reachable mc st →
      Reachable mc (sensor_interrupt_handler st irq hw).1

/-!
Derived quantities and helper lemmas.
-/

/-- Number of active slots in a registration table. -/
def countActive (tbl : List SensorRegistration) : Nat :=
  (tbl.filter (fun reg => reg.active)).length

/-- Number of active slots held by a given requester. -/
def countMatching (r : Nat) (tbl : List SensorRegistration) : Nat :=
  (tbl.filter (reg_matches r)).length

/-- Whether a table has at least one free (inactive) slot. -/
def hasFreeSlot (tbl : List SensorRegistration) : Bool :=
  tbl.any (fun reg => !reg.active)

/-- Interrupt-line separation: no disabled detector shares its configured
interrupt line with an enabled detector.  It holds in particular whenever
the configured lines are pairwise distinct, as in the example
configuration. -/
def irq_separated (mc : ModConfig) : Prop :=
  ∀ t < SENSOR_TYPE_COUNT, ∀ d < DETECTORS_PER_SENSOR,
  ∀ t' < SENSOR_TYPE_COUNT, ∀ d' < DETECTORS_PER_SENSOR,
    (configOf mc t d).enabled = false → (configOf mc t' d').enabled = true →
    (configOf mc t d).irq ≠ (configOf mc t' d').irq

/-! Concrete fixtures (in the style of `example_config.c`) used by the
closed instances below. -/

/-- A concrete module configuration; temperature detector 0 carries the
thresholds of the specification scenario (low 10, high 85, enabled). -/
def mcEx : ModConfig :=
  { temp_detectors :=
      ({ reg_base := 0x50000000, irq := 10, enabled := true,
         threshold_low := 10, threshold_high := 85,
         threshold_enabled := true },
       { reg_base := 0x50000010, irq := 11, enabled := true,
         threshold_low := 0, threshold_high := 100,
         threshold_enabled := false }),
    voltage_detectors :=
      ({ reg_base := 0x50000020, irq := 12, enabled := false,
         threshold_low := 0, threshold_high := 5,
         threshold_enabled := true },
       { reg_base := 0x50000030, irq := 13, enabled := true,
         threshold_low := 1, threshold_high := 4,
         threshold_enabled := true }),
    freq_detectors :=
      ({ reg_base := 0x50000040, irq := 14, enabled := true,
         threshold_low := 100, threshold_high := 200,
         threshold_enabled := true },
       { reg_base := 0x50000050, irq := 15, enabled := false,
         threshold_low := 0, threshold_high := 0,
         threshold_enabled := false }),
    max_registrations_per_detector := 2 }

/-- The initialized module context for `mcEx`. -/
def stEx : SensorManagerCtx := sensor_manager_init mcEx

/-- Requester 9 registered on temperature detector 0. -/
def stExA : SensorManagerCtx := (register_notification 0 0 (some 7) 9 stEx).2

/-- Requester 8 also registered: temperature detector 0's table is full. -/
def stExB : SensorManagerCtx := (register_notification 0 0 (some 7) 8 stExA).2

/-- Requester 4 additionally holds a temperature wildcard registration. -/
def stExC : SensorManagerCtx :=
  (register_notification 0 UINT_MAX (some 5) 4 stExB).2

/-- The scenario detector: temperature detector 0 of `mcEx` as initialized. -/
def dcEx : DetectorContext :=
  init_detector mcEx.temp_detectors.1 mcEx.max_registrations_per_detector

/-- A pathological configuration in which disabled temperature detector 0
shares interrupt line 5 with enabled temperature detector 1. -/
def mcShared : ModConfig :=
  { temp_detectors :=
      ({ reg_base := 0x50000000, irq := 5, enabled := false,
         threshold_low := 0, threshold_high := 0,
         threshold_enabled := false },
       { reg_base := 0x50000010, irq := 5, enabled := true,
         threshold_low := 0, threshold_high := 100,
         threshold_enabled := true }),
    voltage_detectors :=
      ({ reg_base := 0x50000020, irq := 6, enabled := false,
         threshold_low := 0, threshold_high := 5,
         threshold_enabled := true },
       { reg_base := 0x50000030, irq := 7, enabled := false,
         threshold_low := 1, threshold_high := 4,
         threshold_enabled := true }),
    freq_detectors :=
      ({ reg_base := 0x50000040, irq := 8, enabled := false,
         threshold_low := 100, threshold_high := 200,
         threshold_enabled := true },
       { reg_base := 0x50000050, irq := 9, enabled := false,
         threshold_low := 0, threshold_high := 0,
         threshold_enabled := false }),
    max_registrations_per_detector := 2 }

/-- A requester holding a temperature wildcard registration under
`mcShared`. -/
def stShared : SensorManagerCtx :=
  (register_notification 0 UINT_MAX (some 7) 9
    (sensor_manager_init mcShared)).2

/-- Agreement of two detector contexts on everything except their
registration table and active count: sample values, range flag, config
and enabled flag. -/
def sample_state_eq (a b : DetectorContext) : Prop :=
  a.current_value = b.current_value ∧ a.previous_value = b.previous_value ∧
    a.is_in_normal_range = b.is_in_normal_range ∧ a.config = b.config ∧
    a.enabled = b.enabled

lemma getD_set_self {α : Type} (l : List α) (i : Nat) (a d : α)
    (h : i < l.length) : (l.set i a).getD i d = a := by
  rw [List.getD_eq_getElem?_getD, List.getElem?_set_self h]
  rfl

lemma getD_set_ne {α : Type} (l : List α) (i j : Nat) (a d : α)
    (h : i ≠ j) : (l.set i a).getD j d = l.getD j d := by
  rw [List.getD_eq_getElem?_getD, List.getElem?_set_ne h,
    ← List.getD_eq_getElem?_getD]

lemma getD_map_range {α : Type} (n : Nat) (f : Nat → α) (i : Nat) (d : α)
    (h : i < n) : ((List.range n).map f).getD i d = f i := by
  rw [List.getD_eq_getElem?_getD, List.getElem?_map, List.getElem?_range h]
  rfl

lemma getD_replicate {α : Type} (n : Nat) (a d : α) (i : Nat) (h : i < n) :
    (List.replicate n a).getD i d = a := by
  rw [List.getD_eq_getElem?_getD, List.getElem?_replicate, if_pos h]
  rfl

lemma countActive_le_length (tbl : List SensorRegistration) :
    countActive tbl ≤ tbl.length :=
  List.length_filter_le _ tbl

lemma countActive_cons (reg : SensorRegistration)
    (tbl : List SensorRegistration) :
    countActive (reg :: tbl) =
      (if reg.active then 1 else 0) + countActive tbl := by
  by_cases h : reg.active = true <;>
    simp [countActive, List.filter_cons, h, Nat.add_comm]

lemma countMatching_cons (r : Nat) (reg : SensorRegistration)
    (tbl : List SensorRegistration) :
    countMatching r (reg :: tbl) =
      (if reg_matches r reg then 1 else 0) + countMatching r tbl := by
  by_cases h : reg_matches r reg = true <;>
    simp [countMatching, List.filter_cons, h, Nat.add_comm]

lemma find_active_requester_eq_false_iff (tbl : List SensorRegistration)
    (r : Nat) :
    find_active_requester tbl r = false ↔ countMatching r tbl = 0 := by
  induction tbl with
  | nil => simp [find_active_requester, countMatching]
  | cons reg rest ih =>
    by_cases h : reg_matches r reg = true <;>
      simp [find_active_requester, countMatching_cons, h, List.any_cons,
        ← ih, find_active_requester]

lemma countMatching_replicate_empty (K : Nat) (r : Nat) :
    countMatching r (List.replicate K emptyRegistration) = 0 := by
  induction K with
  | zero => simp [countMatching]
  | succ k ih =>
    simp only [List.replicate_succ, countMatching_cons, ih]
    simp [reg_matches, emptyRegistration]

lemma countActive_replicate_empty (K : Nat) :
    countActive (List.replicate K emptyRegistration) = 0 := by
  induction K with
  | zero => simp [countActive]
  | succ k ih =>
    simp only [List.replicate_succ, countActive_cons, ih]
    simp [emptyRegistration]

/-! Lemmas about the first-fit fill scan. -/

lemma fill_cons_active {reg : SensorRegistration}
    {rest : List SensorRegistration} {cb : Option Nat} {r det : Nat}
    (ha : reg.active = true) :
    fill_first_free (reg :: rest) cb r det =
      (fill_first_free rest cb r det).map (reg :: ·) := by
  simp [fill_first_free, ha]

lemma fill_cons_inactive {reg : SensorRegistration}
    {rest : List SensorRegistration} {cb : Option Nat} {r det : Nat}
    (ha : reg.active = false) :
    fill_first_free (reg :: rest) cb r det =
      some (newRegistration cb r det :: rest) := by
  simp [fill_first_free, ha]

lemma fill_first_free_isSome (tbl : List SensorRegistration) (cb : Option Nat)
    (r det : Nat) :
    (fill_first_free tbl cb r det).isSome = hasFreeSlot tbl := by
  induction tbl with
  | nil => rfl
  | cons reg rest ih =>
    cases ha : reg.active
    · rw [fill_cons_inactive ha]
      simp [hasFreeSlot, ha]
    · rw [fill_cons_active ha, Option.isSome_map']
      simp only [hasFreeSlot, List.any_cons, ha, Bool.not_true,
        Bool.false_or]
      exact ih

lemma fill_first_free_length {tbl tbl' : List SensorRegistration}
    {cb : Option Nat} {r det : Nat}
    (h : fill_first_free tbl cb r det = some tbl') :
    tbl'.length = tbl.length := by
  induction tbl generalizing tbl' with
  | nil => simp [fill_first_free] at h
  | cons reg rest ih =>
    cases ha : reg.active
    · rw [fill_cons_inactive ha] at h
      cases h
      simp
    · rw [fill_cons_active ha] at h
      obtain ⟨rest', hrec, h'⟩ := Option.map_eq_some'.mp h
      subst h'
      simp [ih hrec]

lemma fill_first_free_countActive {tbl tbl' : List SensorRegistration}
    {cb : Option Nat} {r det : Nat}
    (h : fill_first_free tbl cb r det = some tbl') :
    countActive tbl' = countActive tbl + 1 := by
  induction tbl generalizing tbl' with
  | nil => simp [fill_first_free] at h
  | cons reg rest ih =>
    cases ha : reg.active
    · rw [fill_cons_inactive ha] at h
      cases h
      simp [countActive_cons, ha, newRegistration, Nat.add_comm]
    · rw [fill_cons_active ha] at h
      obtain ⟨rest', hrec, h'⟩ := Option.map_eq_some'.mp h
      subst h'
      simp [countActive_cons, ha, ih hrec, Nat.add_assoc]

lemma fill_first_free_countMatching {tbl tbl' : List SensorRegistration}
    {cb : Option Nat} {r det : Nat}
    (h : fill_first_free tbl cb r det = some tbl') (r' : Nat) :
    countMatching r' tbl' =
      countMatching r' tbl + (if r' = r then 1 else 0) := by
  induction tbl generalizing tbl' with
  | nil => simp [fill_first_free] at h
  | cons reg rest ih =>
    cases ha : reg.active
    · rw [fill_cons_inactive ha] at h
      cases h
      have hold : reg_matches r' reg = false := by
        simp [reg_matches, ha]
      have hnew : reg_matches r' (newRegistration cb r det) = (r == r') := by
        simp [reg_matches, newRegistration]
      rw [countMatching_cons, countMatching_cons, hold, hnew]
      by_cases hr : r' = r
      · subst hr
        simp [Nat.add_comm]
      · have h1 : (r == r') = false := by
          simp only [beq_eq_false_iff_ne, ne_eq]
          exact fun hh => hr hh.symm
        simp [h1, hr]
    · rw [fill_cons_active ha] at h
      obtain ⟨rest', hrec, h'⟩ := Option.map_eq_some'.mp h
      subst h'
      simp [countMatching_cons, ih hrec, Nat.add_assoc]

lemma fill_first_free_mem {tbl tbl' : List SensorRegistration}
    {cb : Option Nat} {r det : Nat}
    (h : fill_first_free tbl cb r det = some tbl') {reg' : SensorRegistration}
    (hmem : reg' ∈ tbl') : reg' ∈ tbl ∨ reg' = newRegistration cb r det := by
  induction tbl generalizing tbl' with
  | nil => simp [fill_first_free] at h
  | cons reg rest ih =>
    cases ha : reg.active
    · rw [fill_cons_inactive ha] at h
      cases h
      rcases List.mem_cons.mp hmem with h' | h'
      · exact Or.inr h'
      · exact Or.inl (List.mem_cons_of_mem _ h')
    · rw [fill_cons_active ha] at h
      obtain ⟨rest', hrec, h'⟩ := Option.map_eq_some'.mp h
      subst h'
      rcases List.mem_cons.mp hmem with h' | h'
      · exact Or.inl (h' ▸ List.mem_cons_self _ _)
      · rcases ih hrec h' with h'' | h''
        · exact Or.inl (List.mem_cons_of_mem _ h'')
        · exact Or.inr h''

/-! Lemmas about the clearing scan. -/

lemma clear_cons_match {reg : SensorRegistration}
    {rest : List SensorRegistration} {r : Nat}
    (hm : reg_matches r reg = true) :
    clear_first_match (reg :: rest) r = some (emptyRegistration :: rest) := by
  simp [clear_first_match, hm]

lemma clear_cons_nomatch {reg : SensorRegistration}
    {rest : List SensorRegistration} {r : Nat}
    (hm : reg_matches r reg = false) :
    clear_first_match (reg :: rest) r =
      (clear_first_match rest r).map (reg :: ·) := by
  simp [clear_first_match, hm]

lemma clear_first_match_isSome (tbl : List SensorRegistration) (r : Nat) :
    (clear_first_match tbl r).isSome = find_active_requester tbl r := by
  induction tbl with
  | nil => rfl
  | cons reg rest ih =>
    cases hm : reg_matches r reg
    · rw [clear_cons_nomatch hm, Option.isSome_map']
      simp only [find_active_requester, List.any_cons, hm, Bool.false_or]
      exact ih
    · rw [clear_cons_match hm]
      simp [find_active_requester, hm]

lemma clear_first_match_length {tbl tbl' : List SensorRegistration} {r : Nat}
    (h : clear_first_match tbl r = some tbl') :
    tbl'.length = tbl.length := by
  induction tbl generalizing tbl' with
  | nil => simp [clear_first_match] at h
  | cons reg rest ih =>
    cases hm : reg_matches r reg
    · rw [clear_cons_nomatch hm] at h
      obtain ⟨rest', hrec, h'⟩ := Option.map_eq_some'.mp h
      subst h'
      simp [ih hrec]
    · rw [clear_cons_match hm] at h
      cases h
      simp

lemma clear_first_match_countActive {tbl tbl' : List SensorRegistration}
    {r : Nat} (h : clear_first_match tbl r = some tbl') :
    countActive tbl' + 1 = countActive tbl := by
  induction tbl generalizing tbl' with
  | nil => simp [clear_first_match] at h
  | cons reg rest ih =>
    cases hm : reg_matches r reg
    · rw [clear_cons_nomatch hm] at h
      obtain ⟨rest', hrec, h'⟩ := Option.map_eq_some'.mp h
      subst h'
      rw [countActive_cons, countActive_cons, Nat.add_assoc, ih hrec]
    · rw [clear_cons_match hm] at h
      cases h
      have ha : reg.active = true := by
        have := hm
        simp [reg_matches] at this
        exact this.1
      rw [countActive_cons, countActive_cons, ha]
      simp [emptyRegistration, Nat.add_comm]

lemma clear_first_match_countMatching {tbl tbl' : List SensorRegistration}
    {r : Nat} (h : clear_first_match tbl r = some tbl') (r' : Nat) :
    countMatching r' tbl' + (if r' = r then 1 else 0) =
      countMatching r' tbl := by
  induction tbl generalizing tbl' with
  | nil => simp [clear_first_match] at h
  | cons reg rest ih =>
    cases hm : reg_matches r reg
    · rw [clear_cons_nomatch hm] at h
      obtain ⟨rest', hrec, h'⟩ := Option.map_eq_some'.mp h
      subst h'
      rw [countMatching_cons, countMatching_cons, Nat.add_assoc, ih hrec]
    · rw [clear_cons_match hm] at h
      cases h
      have hparts : reg.active = true ∧ reg.requester_id = r := by
        have := hm
        simp [reg_matches] at this
        exact this
      have hempty : reg_matches r' emptyRegistration = false := by
        simp [reg_matches, emptyRegistration]
      rw [countMatching_cons, countMatching_cons, hempty]
      by_cases hr : r' = r
      · subst hr
        have : reg_matches r' reg = true := by
          simp [reg_matches, hparts.1, hparts.2]
        rw [this]
        simp [Nat.add_comm]
      · have : reg_matches r' reg = false := by
          simp only [reg_matches, Bool.and_eq_false_iff]
          right
          simp only [beq_eq_false_iff_ne, ne_eq, hparts.2]
          exact fun hh => hr hh.symm
        rw [this]
        simp [hr]

lemma clear_first_match_mem {tbl tbl' : List SensorRegistration} {r : Nat}
    (h : clear_first_match tbl r = some tbl') {reg' : SensorRegistration}
    (hmem : reg' ∈ tbl') : reg' ∈ tbl ∨ reg' = emptyRegistration := by
  induction tbl generalizing tbl' with
  | nil => simp [clear_first_match] at h
  | cons reg rest ih =>
    cases hm : reg_matches r reg
    · rw [clear_cons_nomatch hm] at h
      obtain ⟨rest', hrec, h'⟩ := Option.map_eq_some'.mp h
      subst h'
      rcases List.mem_cons.mp hmem with h' | h'
      · exact Or.inl (h' ▸ List.mem_cons_self _ _)
      · rcases ih hrec h' with h'' | h''
        · exact Or.inl (List.mem_cons_of_mem _ h'')
        · exact Or.inr h''
    · rw [clear_cons_match hm] at h
      cases h
      rcases List.mem_cons.mp hmem with h' | h'
      · exact Or.inr h'
      · exact Or.inl (List.mem_cons_of_mem _ h')

lemma clear_first_match_hasFreeSlot {tbl tbl' : List SensorRegistration}
    {r : Nat} (h : clear_first_match tbl r = some tbl') :
    hasFreeSlot tbl' = true := by
  induction tbl generalizing tbl' with
  | nil => simp [clear_first_match] at h
  | cons reg rest ih =>
    cases hm : reg_matches r reg
    · rw [clear_cons_nomatch hm] at h
      obtain ⟨rest', hrec, h'⟩ := Option.map_eq_some'.mp h
      subst h'
      simp only [hasFreeSlot, List.any_cons]
      rw [show rest'.any (fun reg => !reg.active) = true from ih hrec]
      simp
    · rw [clear_cons_match hm] at h
      cases h
      simp [hasFreeSlot, emptyRegistration]

/-! Lemmas about the per-table register / unregister bodies. -/

lemma table_register_dup {tbl : List SensorRegistration} {cb : Option Nat}
    {r det : Nat} (h : find_active_requester tbl r = true) :
    table_register tbl cb r det = (.E_STATE, tbl) := by
  simp [table_register, h]

lemma table_register_fail_frame {tbl : List SensorRegistration}
    {cb : Option Nat} {r det : Nat}
    (h : (table_register tbl cb r det).1 ≠ .SUCCESS) :
    (table_register tbl cb r det).2 = tbl := by
  unfold table_register at h ⊢
  by_cases hf : find_active_requester tbl r = true
  · simp [hf]
  · simp only [hf] at h ⊢
    cases hfill : fill_first_free tbl cb r det with
    | none => simp [hfill]
    | some tbl' => simp [hfill] at h ⊢

lemma table_register_success {tbl : List SensorRegistration} {cb : Option Nat}
    {r det : Nat} (h : (table_register tbl cb r det).1 = .SUCCESS) :
    find_active_requester tbl r = false ∧
      fill_first_free tbl cb r det = some (table_register tbl cb r det).2 := by
  unfold table_register at h ⊢
  by_cases hf : find_active_requester tbl r = true
  · simp [hf] at h
  · simp only [hf] at h ⊢
    cases hfill : fill_first_free tbl cb r det with
    | none => simp [hfill] at h
    | some tbl' =>
      simp only [Bool.not_eq_true] at hf
      simp [hfill, hf]

lemma table_register_full {tbl : List SensorRegistration} {cb : Option Nat}
    {r det : Nat} (hf : find_active_requester tbl r = false)
    (hfull : hasFreeSlot tbl = false) :
    table_register tbl cb r det = (.E_NOMEM, tbl) := by
  have hfill : fill_first_free tbl cb r det = none := by
    have := fill_first_free_isSome tbl cb r det
    rw [hfull] at this
    exact Option.not_isSome_iff_eq_none.mp (by simp [this])
  simp [table_register, hf, hfill]

lemma table_register_success_of_free {tbl : List SensorRegistration}
    {cb : Option Nat} {r det : Nat} (hf : find_active_requester tbl r = false)
    (hfree : hasFreeSlot tbl = true) :
    (table_register tbl cb r det).1 = .SUCCESS := by
  have hfill : (fill_first_free tbl cb r det).isSome = true := by
    rw [fill_first_free_isSome, hfree]
  obtain ⟨tbl', htbl'⟩ := Option.isSome_iff_exists.mp hfill
  simp [table_register, hf, htbl']

lemma table_unregister_fail_frame {tbl : List SensorRegistration} {r : Nat}
    (h : (table_unregister tbl r).1 ≠ .SUCCESS) :
    (table_unregister tbl r).2 = tbl := by
  unfold table_unregister at h ⊢
  cases hclear : clear_first_match tbl r with
  | none => simp [hclear]
  | some tbl' => simp [hclear] at h ⊢

lemma table_unregister_success {tbl : List SensorRegistration} {r : Nat}
    (h : (table_unregister tbl r).1 = .SUCCESS) :
    clear_first_match tbl r = some (table_unregister tbl r).2 := by
  unfold table_unregister at h ⊢
  cases hclear : clear_first_match tbl r with
  | none => simp [hclear] at h
  | some tbl' => simp [hclear]

lemma table_unregister_not_registered {tbl : List SensorRegistration}
    {r : Nat} (h : find_active_requester tbl r = false) :
    table_unregister tbl r = (.E_ACCESS, tbl) := by
  have hclear : clear_first_match tbl r = none := by
    have := clear_first_match_isSome tbl r
    rw [h] at this
    exact Option.not_isSome_iff_eq_none.mp (by simp [this])
  simp [table_unregister, hclear]

lemma table_unregister_success_iff (tbl : List SensorRegistration) (r : Nat) :
    (table_unregister tbl r).1 = .SUCCESS ↔
      find_active_requester tbl r = true := by
  constructor
  · intro h
    have := table_unregister_success h
    have hsome : (clear_first_match tbl r).isSome = true := by
      simp [this]
    rwa [clear_first_match_isSome] at hsome
  · intro h
    have hsome : (clear_first_match tbl r).isSome = true := by
      rw [clear_first_match_isSome, h]
    obtain ⟨tbl', htbl'⟩ := Option.isSome_iff_exists.mp hsome
    simp [table_unregister, htbl']

/-! Table well-formedness: the invariant carried by every registration
table of capacity `K`. -/

/-- Well-formedness of one registration table of capacity `K`: it has
exactly `K` slots, each requester holds at most one active slot, and
every active slot has a non-`NULL` callback. -/
structure TableWF (K : Nat) (tbl : List SensorRegistration) : Prop where
  len : tbl.length = K
  uniq : ∀ r, countMatching r tbl ≤ 1
  cb : ∀ reg ∈ tbl, reg.active = true → reg.callback.isSome = true

lemma tableWF_replicate (K : Nat) :
    TableWF K (List.replicate K emptyRegistration) := by
  refine ⟨List.length_replicate K _, fun r => ?_, fun reg hmem hact => ?_⟩
  · rw [countMatching_replicate_empty]
    exact Nat.zero_le 1
  · have := List.eq_of_mem_replicate hmem
    subst this
    simp [emptyRegistration] at hact

lemma tableWF_register {K : Nat} {tbl : List SensorRegistration}
    {cb : Option Nat} {r det : Nat} (hwf : TableWF K tbl)
    (hcb : cb.isSome = true)
    (h : (table_register tbl cb r det).1 = .SUCCESS) :
    TableWF K (table_register tbl cb r det).2 := by
  obtain ⟨hf, hfill⟩ := table_register_success h
  refine ⟨?_, fun r' => ?_, fun reg hmem hact => ?_⟩
  · exact (fill_first_free_length hfill).trans hwf.len
  · rw [fill_first_free_countMatching hfill r']
    by_cases hr : r' = r
    · subst hr
      have h0 := (find_active_requester_eq_false_iff tbl r').mp hf
      simp [h0]
    · simp only [hr, if_neg, ite_false, Nat.add_zero]
      exact hwf.uniq r'
  · rcases fill_first_free_mem hfill hmem with h' | h'
    · exact hwf.cb reg h' hact
    · subst h'
      simpa [newRegistration] using hcb

lemma tableWF_unregister {K : Nat} {tbl : List SensorRegistration} {r : Nat}
    (hwf : TableWF K tbl) (h : (table_unregister tbl r).1 = .SUCCESS) :
    TableWF K (table_unregister tbl r).2 := by
  have hclear := table_unregister_success h
  refine ⟨(clear_first_match_length hclear).trans hwf.len,
    fun r' => ?_, fun reg hmem hact => ?_⟩
  · have := clear_first_match_countMatching hclear r'
    have h2 := hwf.uniq r'
    omega
  · rcases clear_first_match_mem hclear hmem with h' | h'
    · exact hwf.cb reg h' hact
    · subst h'
      simp [emptyRegistration] at hact

/-! State accessor lemmas. -/

lemma sensors_length_setSensor (st : SensorManagerCtx) (t : Nat)
    (sc : SensorContext) :
    (setSensor st t sc).sensors.length = st.sensors.length := by
  simp [setSensor]

lemma getSensor_setSensor_self {st : SensorManagerCtx} {t : Nat}
    (sc : SensorContext) (h : t < st.sensors.length) :
    getSensor (setSensor st t sc) t = sc := by
  simp only [getSensor, setSensor]
  exact getD_set_self _ _ _ _ h

lemma getSensor_setSensor_ne {st : SensorManagerCtx} {t t' : Nat}
    (sc : SensorContext) (h : t ≠ t') :
    getSensor (setSensor st t sc) t' = getSensor st t' := by
  simp only [getSensor, setSensor]
  exact getD_set_ne _ _ _ _ _ h

lemma getDetector_eq (st : SensorManagerCtx) (t d : Nat) :
    getDetector st t d = (getSensor st t).detectors.getD d defaultDetector :=
  rfl

lemma sensors_length_setDetector (st : SensorManagerCtx) (t d : Nat)
    (dc : DetectorContext) :
    (setDetector st t d dc).sensors.length = st.sensors.length := by
  simp [setDetector, setSensor]

lemma getSensor_setDetector_self {st : SensorManagerCtx} {t : Nat} (d : Nat)
    (dc : DetectorContext) (h : t < st.sensors.length) :
    getSensor (setDetector st t d dc) t =
      { getSensor st t with
        detectors := (getSensor st t).detectors.set d dc } := by
  simp only [setDetector]
  exact getSensor_setSensor_self _ h

lemma getSensor_setDetector_ne {st : SensorManagerCtx} {t t' : Nat} (d : Nat)
    (dc : DetectorContext) (h : t ≠ t') :
    getSensor (setDetector st t d dc) t' = getSensor st t' := by
  simp only [setDetector]
  exact getSensor_setSensor_ne _ h

lemma getDetector_setDetector_self {st : SensorManagerCtx} {t d : Nat}
    (dc : DetectorContext) (ht : t < st.sensors.length)
    (hd : d < (getSensor st t).detectors.length) :
    getDetector (setDetector st t d dc) t d = dc := by
  rw [getDetector_eq, getSensor_setDetector_self d dc ht]
  exact getD_set_self _ _ _ _ hd

lemma getDetector_setDetector_ne_t {st : SensorManagerCtx} {t t' : Nat}
    (d d' : Nat) (dc : DetectorContext) (h : t ≠ t') :
    getDetector (setDetector st t d dc) t' d' = getDetector st t' d' := by
  rw [getDetector_eq, getSensor_setDetector_ne d dc h, ← getDetector_eq]

lemma getDetector_setDetector_ne_d {st : SensorManagerCtx} {t d d' : Nat}
    (dc : DetectorContext) (ht : t < st.sensors.length) (h : d ≠ d') :
    getDetector (setDetector st t d dc) t d' = getDetector st t d' := by
  rw [getDetector_eq, getSensor_setDetector_self d dc ht]
  exact getD_set_ne _ _ _ _ _ h

/-! The reachable-state invariant. -/

/-- Well-formedness of one detector context: its immutable fields agree
with the build-time configuration, its table is well-formed with the
configured capacity, its active count is accurate, and its range flag is
correct for its latest sample (or it is still in the unsampled initial
state: value 0, previous 0, flag `true`). -/
structure DetWF (mc : ModConfig) (t d : Nat) (dc : DetectorContext) :
    Prop where
  config_eq : dc.config = configOf mc t d
  enabled_eq : dc.enabled = (configOf mc t d).enabled
  maxr : dc.max_registrations = mc.max_registrations_per_detector
  table : TableWF mc.max_registrations_per_detector dc.registrations
  count : dc.active_count = countActive dc.registrations
  flag_disabled : (configOf mc t d).threshold_enabled = false →
    dc.is_in_normal_range = true
  flag_enabled : (configOf mc t d).threshold_enabled = true →
    dc.is_in_normal_range =
        is_value_in_normal_range dc.current_value (configOf mc t d) ∨
      (dc.is_in_normal_range = true ∧ dc.current_value = 0 ∧
        dc.previous_value = 0)

/-- Well-formedness of one sensor context. -/
structure SensorWF (mc : ModConfig) (t : Nat) (sc : SensorContext) :
    Prop where
  det_len : sc.detectors.length = DETECTORS_PER_SENSOR
  maxg : sc.max_global_registrations = mc.max_registrations_per_detector
  gtable : TableWF mc.max_registrations_per_detector sc.global_registrations
  gcount : sc.global_active_count = countActive sc.global_registrations
  dets : ∀ d < DETECTORS_PER_SENSOR,
    DetWF mc t d (sc.detectors.getD d defaultDetector)

/-- The module-context invariant, preserved by every reachable step. -/
structure Inv (mc : ModConfig) (st : SensorManagerCtx) : Prop where
  slen : st.sensors.length = SENSOR_TYPE_COUNT
  sens : ∀ t < SENSOR_TYPE_COUNT, SensorWF mc t (getSensor st t)

lemma detWF_init (mc : ModConfig) (t d : Nat) :
    DetWF mc t d
      (init_detector (configOf mc t d) mc.max_registrations_per_detector) := by
  refine ⟨rfl, rfl, rfl, tableWF_replicate _, ?_, fun _ => rfl, fun _ => ?_⟩
  · rw [init_detector, countActive_replicate_empty]
  · exact Or.inr ⟨rfl, rfl, rfl⟩

lemma inv_init (mc : ModConfig) : Inv mc (sensor_manager_init mc) := by
  refine ⟨by simp [sensor_manager_init], fun t ht => ?_⟩
  have hs : getSensor (sensor_manager_init mc) t =
      { detectors := (List.range DETECTORS_PER_SENSOR).map (fun d =>
          init_detector (configOf mc t d) mc.max_registrations_per_detector),
        global_registrations :=
          List.replicate mc.max_registrations_per_detector emptyRegistration,
        global_active_count := 0,
        max_global_registrations := mc.max_registrations_per_detector } := by
    rw [getSensor, sensor_manager_init]
    exact getD_map_range _ _ _ _ ht
  rw [hs]
  refine ⟨by simp, rfl, tableWF_replicate _,
    (countActive_replicate_empty _).symm, fun d hd => ?_⟩
  have hd' : ((List.range DETECTORS_PER_SENSOR).map (fun d =>
      init_detector (configOf mc t d)
        mc.max_registrations_per_detector)).getD d defaultDetector =
      init_detector (configOf mc t d) mc.max_registrations_per_detector :=
    getD_map_range _ _ _ _ hd
  simp only [hd']
  exact detWF_init mc t d

/-! Shape lemmas: the facade calls under each guard outcome. -/

lemma ne_UINT_MAX_of_lt {d : Nat} (h : d < DETECTORS_PER_SENSOR) :
    d ≠ UINT_MAX := by
  intro he
  rw [he] at h
  exact absurd h (by decide)

lemma register_notification_param1 {type : Nat} {cb : Option Nat}
    {r : Nat} {st : SensorManagerCtx} {det : Nat}
    (h : SENSOR_TYPE_COUNT ≤ type ∨ cb = none) :
    register_notification type det cb r st = (.E_PARAM, st) := by
  unfold register_notification
  rw [if_pos h]

lemma register_notification_param2 {type : Nat} {cb : Option Nat}
    {r : Nat} {st : SensorManagerCtx} {det : Nat}
    (h1 : ¬(SENSOR_TYPE_COUNT ≤ type ∨ cb = none))
    (h2 : det ≠ UINT_MAX ∧ DETECTORS_PER_SENSOR ≤ det) :
    register_notification type det cb r st = (.E_PARAM, st) := by
  unfold register_notification
  rw [if_neg h1, if_pos h2]

lemma register_notification_wildcard {type : Nat} {cb : Option Nat}
    {r : Nat} {st : SensorManagerCtx}
    (h1 : type < SENSOR_TYPE_COUNT) (hcb : cb ≠ none) :
    register_notification type UINT_MAX cb r st =
      (if (table_register (getSensor st type).global_registrations cb r
            UINT_MAX).1 = .SUCCESS then
        ((table_register (getSensor st type).global_registrations cb r
            UINT_MAX).1,
          setSensor st type
            { getSensor st type with
              global_registrations :=
                (table_register (getSensor st type).global_registrations cb r
                  UINT_MAX).2,
              global_active_count :=
                (getSensor st type).global_active_count + 1 })
      else
        ((table_register (getSensor st type).global_registrations cb r
            UINT_MAX).1, st)) := by
  have g1 : ¬(SENSOR_TYPE_COUNT ≤ type ∨ cb = none) :=
    not_or.mpr ⟨Nat.not_le.mpr h1, hcb⟩
  have g2 : ¬(UINT_MAX ≠ UINT_MAX ∧ DETECTORS_PER_SENSOR ≤ UINT_MAX) := by
    simp
  unfold register_notification
  rw [if_neg g1, if_neg g2, if_pos rfl]

lemma register_notification_direct {type det : Nat} {cb : Option Nat}
    {r : Nat} {st : SensorManagerCtx}
    (h1 : type < SENSOR_TYPE_COUNT) (hcb : cb ≠ none)
    (hd : det < DETECTORS_PER_SENSOR) :
    register_notification type det cb r st =
      (if (table_register (getDetector st type det).registrations cb r
            det).1 = .SUCCESS then
        ((table_register (getDetector st type det).registrations cb r det).1,
          setDetector st type det
            { getDetector st type det with
              registrations :=
                (table_register (getDetector st type det).registrations cb r
                  det).2,
              active_count := (getDetector st type det).active_count + 1 })
      else
        ((table_register (getDetector st type det).registrations cb r det).1,
          st)) := by
  have g1 : ¬(SENSOR_TYPE_COUNT ≤ type ∨ cb = none) :=
    not_or.mpr ⟨Nat.not_le.mpr h1, hcb⟩
  have g2 : ¬(det ≠ UINT_MAX ∧ DETECTORS_PER_SENSOR ≤ det) := by
    intro hc
    exact absurd hd (Nat.not_lt.mpr hc.2)
  unfold register_notification
  rw [if_neg g1, if_neg g2, if_neg (ne_UINT_MAX_of_lt hd)]

lemma unregister_notification_param1 {type det r : Nat}
    {st : SensorManagerCtx} (h : SENSOR_TYPE_COUNT ≤ type) :
    unregister_notification type det r st = (.E_PARAM, st) := by
  unfold unregister_notification
  rw [if_pos h]

lemma unregister_notification_param2 {type det r : Nat}
    {st : SensorManagerCtx} (h1 : ¬SENSOR_TYPE_COUNT ≤ type)
    (h2 : det ≠ UINT_MAX ∧ DETECTORS_PER_SENSOR ≤ det) :
    unregister_notification type det r st = (.E_PARAM, st) := by
  unfold unregister_notification
  rw [if_neg h1, if_pos h2]

lemma unregister_notification_wildcard {type r : Nat}
    {st : SensorManagerCtx} (h1 : type < SENSOR_TYPE_COUNT) :
    unregister_notification type UINT_MAX r st =
      (if (table_unregister (getSensor st type).global_registrations r).1 =
          .SUCCESS then
        ((table_unregister (getSensor st type).global_registrations r).1,
          setSensor st type
            { getSensor st type with
              global_registrations :=
                (table_unregister (getSensor st type).global_registrations
                  r).2,
              global_active_count :=
                (getSensor st type).global_active_count - 1 })
      else
        ((table_unregister (getSensor st type).global_registrations r).1,
          st)) := by
  have g2 : ¬(UINT_MAX ≠ UINT_MAX ∧ DETECTORS_PER_SENSOR ≤ UINT_MAX) := by
    simp
  unfold unregister_notification
  rw [if_neg (Nat.not_le.mpr h1), if_neg g2, if_pos rfl]

lemma unregister_notification_direct {type det r : Nat}
    {st : SensorManagerCtx} (h1 : type < SENSOR_TYPE_COUNT)
    (hd : det < DETECTORS_PER_SENSOR) :
    unregister_notification type det r st =
      (if (table_unregister (getDetector st type det).registrations r).1 =
          .SUCCESS then
        ((table_unregister (getDetector st type det).registrations r).1,
          setDetector st type det
            { getDetector st type det with
              registrations :=
                (table_unregister (getDetector st type det).registrations
                  r).2,
              active_count := (getDetector st type det).active_count - 1 })
      else
        ((table_unregister (getDetector st type det).registrations r).1,
          st)) := by
  have g2 : ¬(det ≠ UINT_MAX ∧ DETECTORS_PER_SENSOR ≤ det) := by
    intro hc
    exact absurd hd (Nat.not_lt.mpr hc.2)
  unfold unregister_notification
  rw [if_neg (Nat.not_le.mpr h1), if_neg g2,
    if_neg (ne_UINT_MAX_of_lt hd)]

/-! Invariant preservation. -/

lemma inv_register {mc : ModConfig} {st : SensorManagerCtx}
    {type det : Nat} {cb : Option Nat} {r : Nat} (hinv : Inv mc st) :
    Inv mc (register_notification type det cb r st).2 := by
  by_cases g1 : SENSOR_TYPE_COUNT ≤ type ∨ cb = none
  · rw [register_notification_param1 g1]
    exact hinv
  obtain ⟨ht', hcb⟩ := not_or.mp g1
  have ht : type < SENSOR_TYPE_COUNT := Nat.not_le.mp ht'
  by_cases gw : det = UINT_MAX
  · subst gw
    rw [register_notification_wildcard ht hcb]
    by_cases hs : (table_register (getSensor st type).global_registrations
        cb r UINT_MAX).1 = .SUCCESS
    · rw [if_pos hs]
      dsimp only
      refine ⟨?_, fun t' ht'' => ?_⟩
      · rw [sensors_length_setSensor]
        exact hinv.slen
      · by_cases htt : type = t'
        · subst htt
          rw [getSensor_setSensor_self _ (by rw [hinv.slen]; exact ht)]
          have hold := hinv.sens type ht
          refine ⟨hold.det_len, hold.maxg, ?_, ?_, hold.dets⟩
          · exact tableWF_register hold.gtable
              (Option.ne_none_iff_isSome.mp hcb) hs
          · obtain ⟨hf, hfill⟩ := table_register_success hs
            have h1 := fill_first_free_countActive hfill
            have h2 := hold.gcount
            dsimp only
            omega
        · rw [getSensor_setSensor_ne _ htt]
          exact hinv.sens t' ht''
    · rw [if_neg hs]
      exact hinv
  · by_cases g2 : DETECTORS_PER_SENSOR ≤ det
    · rw [register_notification_param2 g1 ⟨gw, g2⟩]
      exact hinv
    · have hd : det < DETECTORS_PER_SENSOR := Nat.not_le.mp g2
      rw [register_notification_direct ht hcb hd]
      by_cases hs : (table_register (getDetector st type det).registrations
          cb r det).1 = .SUCCESS
      · rw [if_pos hs]
        dsimp only
        refine ⟨?_, fun t' ht'' => ?_⟩
        · rw [sensors_length_setDetector]
          exact hinv.slen
        · by_cases htt : type = t'
          · subst htt
            rw [getSensor_setDetector_self _ _ (by rw [hinv.slen]; exact ht)]
            have hold := hinv.sens type ht
            refine ⟨by simp [hold.det_len], hold.maxg, hold.gtable,
              hold.gcount, fun d' hd' => ?_⟩
            by_cases hdd : det = d'
            · subst hdd
              rw [getD_set_self _ _ _ _ (by rw [hold.det_len]; exact hd)]
              have holdd := hold.dets det hd
              refine ⟨holdd.config_eq, holdd.enabled_eq, holdd.maxr, ?_, ?_,
                holdd.flag_disabled, holdd.flag_enabled⟩
              · exact tableWF_register holdd.table
                  (Option.ne_none_iff_isSome.mp hcb) hs
              · obtain ⟨hf, hfill⟩ := table_register_success hs
                have h1 := fill_first_free_countActive hfill
                have h2 : (getDetector st type det).active_count =
                    countActive (getDetector st type det).registrations :=
                  holdd.count
                dsimp only
                omega
            · rw [getD_set_ne _ _ _ _ _ hdd]
              exact hold.dets d' hd'
          · rw [getSensor_setDetector_ne _ _ htt]
            exact hinv.sens t' ht''
      · rw [if_neg hs]
        exact hinv

lemma inv_unregister {mc : ModConfig} {st : SensorManagerCtx}
    {type det r : Nat} (hinv : Inv mc st) :
    Inv mc (unregister_notification type det r st).2 := by
  by_cases g1 : SENSOR_TYPE_COUNT ≤ type
  · rw [unregister_notification_param1 g1]
    exact hinv
  have ht : type < SENSOR_TYPE_COUNT := Nat.not_le.mp g1
  by_cases gw : det = UINT_MAX
  · subst gw
    rw [unregister_notification_wildcard ht]
    by_cases hs : (table_unregister (getSensor st type).global_registrations
        r).1 = .SUCCESS
    · rw [if_pos hs]
      dsimp only
      refine ⟨?_, fun t' ht'' => ?_⟩
      · rw [sensors_length_setSensor]
        exact hinv.slen
      · by_cases htt : type = t'
        · subst htt
          rw [getSensor_setSensor_self _ (by rw [hinv.slen]; exact ht)]
          have hold := hinv.sens type ht
          refine ⟨hold.det_len, hold.maxg, ?_, ?_, hold.dets⟩
          · exact tableWF_unregister hold.gtable hs
          · have hclear := table_unregister_success hs
            have h1 := clear_first_match_countActive hclear
            have h2 := hold.gcount
            dsimp only
            omega
        · rw [getSensor_setSensor_ne _ htt]
          exact hinv.sens t' ht''
    · rw [if_neg hs]
      exact hinv
  · by_cases g2 : DETECTORS_PER_SENSOR ≤ det
    · rw [unregister_notification_param2 g1 ⟨gw, g2⟩]
      exact hinv
    · have hd : det < DETECTORS_PER_SENSOR := Nat.not_le.mp g2
      rw [unregister_notification_direct ht hd]
      by_cases hs : (table_unregister (getDetector st type det).registrations
          r).1 = .SUCCESS
      · rw [if_pos hs]
        dsimp only
        refine ⟨?_, fun t' ht'' => ?_⟩
        · rw [sensors_length_setDetector]
          exact hinv.slen
        · by_cases htt : type = t'
          · subst htt
            rw [getSensor_setDetector_self _ _ (by rw [hinv.slen]; exact ht)]
            have hold := hinv.sens type ht
            refine ⟨by simp [hold.det_len], hold.maxg, hold.gtable,
              hold.gcount, fun d' hd' => ?_⟩
            by_cases hdd : det = d'
            · subst hdd
              rw [getD_set_self _ _ _ _ (by rw [hold.det_len]; exact hd)]
              have holdd := hold.dets det hd
              refine ⟨holdd.config_eq, holdd.enabled_eq, holdd.maxr, ?_, ?_,
                holdd.flag_disabled, holdd.flag_enabled⟩
              · exact tableWF_unregister holdd.table hs
              · have hclear := table_unregister_success hs
                have h1 := clear_first_match_countActive hclear
                have h2 : (getDetector st type det).active_count =
                    countActive (getDetector st type det).registrations :=
                  holdd.count
                dsimp only
                omega
            · rw [getD_set_ne _ _ _ _ _ hdd]
              exact hold.dets d' hd'
          · rw [getSensor_setDetector_ne _ _ htt]
            exact hinv.sens t' ht''
      · rw [if_neg hs]
        exact hinv

/-- The state after `detector_sample`: previous value saved, new value
stored, range flag recomputed. -/
lemma detector_sample_state (dc : DetectorContext) (value : Nat) :
    (detector_sample dc value).1 =
      { dc with
        previous_value := dc.current_value,
        current_value := value,
        is_in_normal_range := is_value_in_normal_range value dc.config } := by
  unfold detector_sample
  dsimp only
  split <;> rfl

/-- The state part of `sensor_interrupt_handler`. -/
lemma sensor_interrupt_handler_state (st : SensorManagerCtx) (irq hw : Nat) :
    (sensor_interrupt_handler st irq hw).1 =
      match get_sensor_and_detector_from_irq st irq with
      | none => st
      | some (type, det) =>
        setDetector st type det
          (detector_sample (getDetector st type det)
            (read_sensor_register hw)).1 := by
  unfold sensor_interrupt_handler
  cases get_sensor_and_detector_from_irq st irq with
  | none => rfl
  | some p =>
    obtain ⟨t, d⟩ := p
    dsimp only
    cases (detector_sample (getDetector st t d) (read_sensor_register hw)).2
      <;> rfl

lemma irq_scan_pairs_eq :
    irq_scan_pairs = [(0, 0), (0, 1), (1, 0), (1, 1), (2, 0), (2, 1)] := by
  decide

lemma mem_irq_scan_pairs {p : Nat × Nat} (h : p ∈ irq_scan_pairs) :
    p.1 < SENSOR_TYPE_COUNT ∧ p.2 < DETECTORS_PER_SENSOR := by
  rw [irq_scan_pairs_eq] at h
  simp only [List.mem_cons, List.not_mem_nil, or_false] at h
  rcases h with h | h | h | h | h | h <;> subst h <;> exact ⟨by decide, by decide⟩

lemma resolution_spec {st : SensorManagerCtx} {irq : Nat} {p : Nat × Nat}
    (h : get_sensor_and_detector_from_irq st irq = some p) :
    p.1 < SENSOR_TYPE_COUNT ∧ p.2 < DETECTORS_PER_SENSOR ∧
      (getDetector st p.1 p.2).config.irq = irq := by
  have hm := List.mem_of_find?_eq_some h
  have hp := List.find?_some h
  obtain ⟨h1, h2⟩ := mem_irq_scan_pairs hm
  exact ⟨h1, h2, by simpa using hp⟩

lemma inv_interrupt {mc : ModConfig} {st : SensorManagerCtx} {irq hw : Nat}
    (hinv : Inv mc st) : Inv mc (sensor_interrupt_handler st irq hw).1 := by
  rw [sensor_interrupt_handler_state]
  cases hres : get_sensor_and_detector_from_irq st irq with
  | none => exact hinv
  | some p =>
    obtain ⟨type, det⟩ := p
    obtain ⟨ht, hd, hirq⟩ := resolution_spec hres
    dsimp only
    rw [detector_sample_state]
    refine ⟨?_, fun t' ht'' => ?_⟩
    · rw [sensors_length_setDetector]
      exact hinv.slen
    · by_cases htt : type = t'
      · subst htt
        rw [getSensor_setDetector_self _ _ (by rw [hinv.slen]; exact ht)]
        have hold := hinv.sens type ht
        refine ⟨by simp [hold.det_len], hold.maxg, hold.gtable, hold.gcount,
          fun d' hd' => ?_⟩
        by_cases hdd : det = d'
        · subst hdd
          rw [getD_set_self _ _ _ _ (by rw [hold.det_len]; exact hd)]
          have holdd := hold.dets det hd
          have hc : (getDetector st type det).config = configOf mc type det :=
            holdd.config_eq
          refine ⟨holdd.config_eq, holdd.enabled_eq, holdd.maxr, holdd.table,
            holdd.count, ?_, ?_⟩
          · intro hth
            dsimp only
            rw [hc, is_value_in_normal_range, hth]
            simp
          · intro hth
            left
            dsimp only
            rw [hc]
        · rw [getD_set_ne _ _ _ _ _ hdd]
          exact hold.dets d' hd'
      · rw [getSensor_setDetector_ne _ _ htt]
        exact hinv.sens t' ht''

/-- Every reachable state satisfies the invariant. -/
lemma reachable_inv {mc : ModConfig} {st : SensorManagerCtx}
    (h : Reachable mc st) : Inv mc st := by
  induction h with
  | init => exact inv_init mc
  | register st type det cb r _ ih => exact inv_register ih
  | unregister st type det r _ ih => exact inv_unregister ih
  | interrupt st irq hw hlive _ ih => exact inv_interrupt ih

/-! Frame lemmas: what the facade calls leave untouched. -/

lemma getSensor_init (mc : ModConfig) {t : Nat} (ht : t < SENSOR_TYPE_COUNT) :
    getSensor (sensor_manager_init mc) t =
      { detectors := (List.range DETECTORS_PER_SENSOR).map (fun d =>
          init_detector (configOf mc t d) mc.max_registrations_per_detector),
        global_registrations :=
          List.replicate mc.max_registrations_per_detector emptyRegistration,
        global_active_count := 0,
        max_global_registrations := mc.max_registrations_per_detector } := by
  rw [getSensor, sensor_manager_init]
  exact getD_map_range _ _ _ _ ht

lemma getDetector_init (mc : ModConfig) {t d : Nat}
    (ht : t < SENSOR_TYPE_COUNT) (hd : d < DETECTORS_PER_SENSOR) :
    getDetector (sensor_manager_init mc) t d =
      init_detector (configOf mc t d) mc.max_registrations_per_detector := by
  rw [getDetector_eq, getSensor_init mc ht]
  exact getD_map_range _ _ _ _ hd

lemma sample_state_eq_refl (a : DetectorContext) : sample_state_eq a a :=
  ⟨rfl, rfl, rfl, rfl, rfl⟩

lemma register_frame {mc : ModConfig} {st : SensorManagerCtx}
    (hinv : Inv mc st) (type det : Nat) (cb : Option Nat) (r : Nat)
    (t' d' : Nat) :
    sample_state_eq
      (getDetector (register_notification type det cb r st).2 t' d')
      (getDetector st t' d') := by
  by_cases g1 : SENSOR_TYPE_COUNT ≤ type ∨ cb = none
  · rw [register_notification_param1 g1]
    exact sample_state_eq_refl _
  obtain ⟨ht', hcb⟩ := not_or.mp g1
  have ht : type < SENSOR_TYPE_COUNT := Nat.not_le.mp ht'
  have hts : type < st.sensors.length := by rw [hinv.slen]; exact ht
  by_cases gw : det = UINT_MAX
  · subst gw
    rw [register_notification_wildcard ht hcb]
    by_cases hs : (table_register (getSensor st type).global_registrations
        cb r UINT_MAX).1 = .SUCCESS
    · rw [if_pos hs]
      dsimp only
      by_cases htt : type = t'
      · subst htt
        rw [getDetector_eq, getSensor_setSensor_self _ hts]
        exact sample_state_eq_refl _
      · rw [getDetector_eq, getSensor_setSensor_ne _ htt, ← getDetector_eq]
        exact sample_state_eq_refl _
    · rw [if_neg hs]
      exact sample_state_eq_refl _
  · by_cases g2 : DETECTORS_PER_SENSOR ≤ det
    · rw [register_notification_param2 g1 ⟨gw, g2⟩]
      exact sample_state_eq_refl _
    · have hd : det < DETECTORS_PER_SENSOR := Nat.not_le.mp g2
      have hds : det < (getSensor st type).detectors.length := by
        rw [(hinv.sens type ht).det_len]
        exact hd
      rw [register_notification_direct ht hcb hd]
      by_cases hs : (table_register (getDetector st type det).registrations
          cb r det).1 = .SUCCESS
      · rw [if_pos hs]
        dsimp only
        by_cases htt : type = t'
        · subst htt
          by_cases hdd : det = d'
          · subst hdd
            rw [getDetector_setDetector_self _ hts hds]
            exact ⟨rfl, rfl, rfl, rfl, rfl⟩
          · rw [getDetector_setDetector_ne_d _ hts hdd]
            exact sample_state_eq_refl _
        · rw [getDetector_setDetector_ne_t _ _ _ htt]
          exact sample_state_eq_refl _
      · rw [if_neg hs]
        exact sample_state_eq_refl _

lemma unregister_frame {mc : ModConfig} {st : SensorManagerCtx}
    (hinv : Inv mc st) (type det r : Nat) (t' d' : Nat) :
    sample_state_eq
      (getDetector (unregister_notification type det r st).2 t' d')
      (getDetector st t' d') := by
  by_cases g1 : SENSOR_TYPE_COUNT ≤ type
  · rw [unregister_notification_param1 g1]
    exact sample_state_eq_refl _
  have ht : type < SENSOR_TYPE_COUNT := Nat.not_le.mp g1
  have hts : type < st.sensors.length := by rw [hinv.slen]; exact ht
  by_cases gw : det = UINT_MAX
  · subst gw
    rw [unregister_notification_wildcard ht]
    by_cases hs : (table_unregister (getSensor st type).global_registrations
        r).1 = .SUCCESS
    · rw [if_pos hs]
      dsimp only
      by_cases htt : type = t'
      · subst htt
        rw [getDetector_eq, getSensor_setSensor_self _ hts]
        exact sample_state_eq_refl _
      · rw [getDetector_eq, getSensor_setSensor_ne _ htt, ← getDetector_eq]
        exact sample_state_eq_refl _
    · rw [if_neg hs]
      exact sample_state_eq_refl _
  · by_cases g2 : DETECTORS_PER_SENSOR ≤ det
    · rw [unregister_notification_param2 g1 ⟨gw, g2⟩]
      exact sample_state_eq_refl _
    · have hd : det < DETECTORS_PER_SENSOR := Nat.not_le.mp g2
      have hds : det < (getSensor st type).detectors.length := by
        rw [(hinv.sens type ht).det_len]
        exact hd
      rw [unregister_notification_direct ht hd]
      by_cases hs : (table_unregister (getDetector st type det).registrations
          r).1 = .SUCCESS
      · rw [if_pos hs]
        dsimp only
        by_cases htt : type = t'
        · subst htt
          by_cases hdd : det = d'
          · subst hdd
            rw [getDetector_setDetector_self _ hts hds]
            exact ⟨rfl, rfl, rfl, rfl, rfl⟩
          · rw [getDetector_setDetector_ne_d _ hts hdd]
            exact sample_state_eq_refl _
        · rw [getDetector_setDetector_ne_t _ _ _ htt]
          exact sample_state_eq_refl _
      · rw [if_neg hs]
        exact sample_state_eq_refl _

/-! Lemmas about sampling and the dispatch gate. -/

lemma detector_sample_notif (dc : DetectorContext) (value : Nat) :
    (detector_sample dc value).2 =
      if !dc.config.threshold_enabled ||
          (dc.is_in_normal_range != is_value_in_normal_range value dc.config)
      then some (determine_interrupt_type value dc.is_in_normal_range
        dc.config)
      else none := by
  unfold detector_sample
  dsimp only
  split <;> simp_all

lemma determine_disabled {cfg : DetectorConfig} {v : Nat} {was : Bool}
    (h : cfg.threshold_enabled = false) :
    determine_interrupt_type v was cfg = .THRESHOLD_NORMAL := by
  unfold determine_interrupt_type
  simp [h]

lemma determine_exceeded {cfg : DetectorConfig} {v : Nat}
    (h : cfg.threshold_enabled = true)
    (hnow : is_value_in_normal_range v cfg = false) :
    determine_interrupt_type v true cfg = .THRESHOLD_EXCEEDED := by
  unfold determine_interrupt_type
  simp [h, hnow]

lemma determine_return_normal {cfg : DetectorConfig} {v : Nat}
    (h : cfg.threshold_enabled = true)
    (hnow : is_value_in_normal_range v cfg = true) :
    determine_interrupt_type v false cfg = .THRESHOLD_NORMAL := by
  unfold determine_interrupt_type
  simp [h, hnow]

lemma detector_sample_disabled {dc : DetectorContext} {v : Nat}
    (h : dc.config.threshold_enabled = false) :
    (detector_sample dc v).2 = some .THRESHOLD_NORMAL := by
  rw [detector_sample_notif, determine_disabled h]
  simp [h]

lemma detector_sample_enabled_none {dc : DetectorContext} {v : Nat}
    (h : dc.config.threshold_enabled = true)
    (hsame : is_value_in_normal_range v dc.config = dc.is_in_normal_range) :
    (detector_sample dc v).2 = none := by
  rw [detector_sample_notif]
  simp [h, hsame]

lemma detector_sample_exceeded {dc : DetectorContext} {v : Nat}
    (h : dc.config.threshold_enabled = true)
    (hwas : dc.is_in_normal_range = true)
    (hnow : is_value_in_normal_range v dc.config = false) :
    (detector_sample dc v).2 = some .THRESHOLD_EXCEEDED := by
  rw [detector_sample_notif]
  simp only [h, Bool.not_true, Bool.false_or, hnow, hwas]
  simp [determine_exceeded h hnow]

lemma detector_sample_return_normal {dc : DetectorContext} {v : Nat}
    (h : dc.config.threshold_enabled = true)
    (hwas : dc.is_in_normal_range = false)
    (hnow : is_value_in_normal_range v dc.config = true) :
    (detector_sample dc v).2 = some .THRESHOLD_NORMAL := by
  rw [detector_sample_notif]
  simp only [h, Bool.not_true, Bool.false_or, hnow, hwas]
  simp [determine_return_normal h hnow]

lemma detector_sample_config (dc : DetectorContext) (v : Nat) :
    (detector_sample dc v).1.config = dc.config := by
  rw [detector_sample_state]

lemma detector_sample_flag (dc : DetectorContext) (v : Nat) :
    (detector_sample dc v).1.is_in_normal_range =
      is_value_in_normal_range v dc.config := by
  rw [detector_sample_state]

lemma run_samples_append (dc : DetectorContext) (vs1 vs2 : List Nat) :
    run_samples dc (vs1 ++ vs2) =
      ((run_samples (run_samples dc vs1).1 vs2).1,
        (run_samples dc vs1).2 ++
          (run_samples (run_samples dc vs1).1 vs2).2) := by
  induction vs1 generalizing dc with
  | nil => simp [run_samples]
  | cons v vs ih =>
    simp only [List.cons_append, run_samples, List.append_eq]
    rw [ih]
    simp [List.append_assoc]

/-- Run law for a detector with thresholds disabled: every sample
dispatches exactly one Normal notification. -/
lemma run_samples_disabled {dc : DetectorContext} {vs : List Nat}
    (h : dc.config.threshold_enabled = false) :
    (run_samples dc vs).2 = vs.map (fun _ => .THRESHOLD_NORMAL) := by
  induction vs generalizing dc with
  | nil => rfl
  | cons v vs ih =>
    have hcfg : (detector_sample dc v).1.config = dc.config :=
      detector_sample_config dc v
    simp only [run_samples, detector_sample_disabled h, List.map_cons]
    simp only [Option.toList_some, List.singleton_append, List.cons.injEq,
      true_and]
    exact ih (hcfg ▸ h)

/-- Run law for in-range samples: with thresholds enabled and the flag
in-range, a run of in-range samples dispatches nothing and leaves the
flag in-range. -/
lemma run_samples_in_range {dc : DetectorContext} {vs : List Nat}
    (h : dc.config.threshold_enabled = true)
    (hflag : dc.is_in_normal_range = true)
    (hall : ∀ x ∈ vs, is_value_in_normal_range x dc.config = true) :
    (run_samples dc vs).2 = [] ∧
      (run_samples dc vs).1.is_in_normal_range = true ∧
      (run_samples dc vs).1.config = dc.config := by
  induction vs generalizing dc with
  | nil => exact ⟨rfl, hflag, rfl⟩
  | cons v vs ih =>
    have hv : is_value_in_normal_range v dc.config = true :=
      hall v (List.mem_cons_self _ _)
    have hnone : (detector_sample dc v).2 = none :=
      detector_sample_enabled_none h (hv.trans hflag.symm)
    have hcfg := detector_sample_config dc v
    have hflag' : (detector_sample dc v).1.is_in_normal_range = true :=
      (detector_sample_flag dc v).trans hv
    have ih' := @ih (detector_sample dc v).1 (hcfg ▸ h) hflag'
      (fun x hx => hcfg ▸ hall x (List.mem_cons_of_mem _ hx))
    simp only [run_samples, hnone, Option.toList_none, List.nil_append]
    exact ⟨ih'.1, ih'.2.1, ih'.2.2.trans hcfg⟩

/-- Run law for out-of-range samples: with thresholds enabled and the
flag out-of-range, a run of out-of-range samples dispatches nothing and
leaves the flag out-of-range. -/
lemma run_samples_out_of_range {dc : DetectorContext} {vs : List Nat}
    (h : dc.config.threshold_enabled = true)
    (hflag : dc.is_in_normal_range = false)
    (hall : ∀ x ∈ vs, is_value_in_normal_range x dc.config = false) :
    (run_samples dc vs).2 = [] ∧
      (run_samples dc vs).1.is_in_normal_range = false ∧
      (run_samples dc vs).1.config = dc.config := by
  induction vs generalizing dc with
  | nil => exact ⟨rfl, hflag, rfl⟩
  | cons v vs ih =>
    have hv : is_value_in_normal_range v dc.config = false :=
      hall v (List.mem_cons_self _ _)
    have hnone : (detector_sample dc v).2 = none :=
      detector_sample_enabled_none h (hv.trans hflag.symm)
    have hcfg := detector_sample_config dc v
    have hflag' : (detector_sample dc v).1.is_in_normal_range = false :=
      (detector_sample_flag dc v).trans hv
    have ih' := @ih (detector_sample dc v).1 (hcfg ▸ h) hflag'
      (fun x hx => hcfg ▸ hall x (List.mem_cons_of_mem _ hx))
    simp only [run_samples, hnone, Option.toList_none, List.nil_append]
    exact ⟨ih'.1, ih'.2.1, ih'.2.2.trans hcfg⟩

/-! Lemmas about notification dispatch. -/

lemma filterMap_ite {α β : Type} (p : α → Bool) (f : α → β) (l : List α) :
    l.filterMap (fun a => if p a then some (f a) else none) =
      (l.filter p).map f := by
  induction l with
  | nil => rfl
  | cons a l ih =>
    by_cases h : p a = true <;>
      simp [List.filterMap_cons, List.filter_cons, h, ih]

lemma table_invocations_eq (tbl : List SensorRegistration) (type det : Nat)
    (it : SensorInterruptType) (value : Nat) :
    table_invocations tbl type det it value =
      (tbl.filter (fun reg => reg.active && reg.callback.isSome)).map
        (fun reg =>
          { callback := reg.callback, type := type, detector_id := det,
            interrupt_type := it, value := value,
            requester_id := reg.requester_id }) :=
  filterMap_ite _ _ tbl

lemma mem_table_invocations {tbl : List SensorRegistration}
    {type det : Nat} {it : SensorInterruptType} {value : Nat} {e : Invocation}
    (h : e ∈ table_invocations tbl type det it value) :
    ∃ reg ∈ tbl, reg.active = true ∧
      e.callback = reg.callback ∧ e.requester_id = reg.requester_id ∧
      e.type = type ∧ e.detector_id = det ∧ e.interrupt_type = it ∧
      e.value = value := by
  rw [table_invocations_eq] at h
  obtain ⟨reg, hmem, he⟩ := List.mem_map.mp h
  subst he
  have hp := List.of_mem_filter hmem
  simp only [Bool.and_eq_true] at hp
  exact ⟨reg, List.mem_of_mem_filter hmem, hp.1, rfl, rfl, rfl, rfl, rfl, rfl⟩

lemma mem_notify {st : SensorManagerCtx} {type det : Nat}
    {it : SensorInterruptType} {value : Nat} {e : Invocation}
    (h : e ∈ notify_registered_modules st type det it value) :
    (∃ reg ∈ (getDetector st type det).registrations, reg.active = true ∧
        e.requester_id = reg.requester_id) ∨
      (∃ reg ∈ (getSensor st type).global_registrations, reg.active = true ∧
        e.requester_id = reg.requester_id) := by
  rcases List.mem_append.mp h with h' | h'
  · obtain ⟨reg, hmem, ha, _, hr, _⟩ := mem_table_invocations h'
    exact Or.inl ⟨reg, hmem, ha, hr⟩
  · obtain ⟨reg, hmem, ha, _, hr, _⟩ := mem_table_invocations h'
    exact Or.inr ⟨reg, hmem, ha, hr⟩

lemma mem_notify_payload {st : SensorManagerCtx} {type det : Nat}
    {it : SensorInterruptType} {value : Nat} {e : Invocation}
    (h : e ∈ notify_registered_modules st type det it value) :
    e.type = type ∧ e.detector_id = det ∧ e.interrupt_type = it ∧
      e.value = value := by
  rcases List.mem_append.mp h with h' | h' <;>
  · obtain ⟨reg, hmem, ha, _, _, h1, h2, h3, h4⟩ := mem_table_invocations h'
    exact ⟨h1, h2, h3, h4⟩

/-- The invocation list produced by `sensor_interrupt_handler`. -/
lemma sensor_interrupt_handler_invocations (st : SensorManagerCtx)
    (irq hw : Nat) :
    (sensor_interrupt_handler st irq hw).2 =
      match get_sensor_and_detector_from_irq st irq with
      | none => []
      | some (type, det) =>
        match (detector_sample (getDetector st type det)
            (read_sensor_register hw)).2 with
        | some it =>
          notify_registered_modules
            (setDetector st type det
              (detector_sample (getDetector st type det)
                (read_sensor_register hw)).1)
            type det it (read_sensor_register hw)
        | none => [] := by
  unfold sensor_interrupt_handler
  cases get_sensor_and_detector_from_irq st irq with
  | none => rfl
  | some p =>
    obtain ⟨t, d⟩ := p
    dsimp only
    cases (detector_sample (getDetector st t d) (read_sensor_register hw)).2
      <;> rfl

/-! Disabled detectors under interrupt-line separation. -/

lemma resolution_enabled {mc : ModConfig} {st : SensorManagerCtx}
    {irq : Nat} {p : Nat × Nat} (hinv : Inv mc st) (hsep : irq_separated mc)
    (hlive : irq_live (sensor_manager_init mc) irq)
    (hres : get_sensor_and_detector_from_irq st irq = some p) :
    (getDetector st p.1 p.2).enabled = true := by
  obtain ⟨ht, hd, hirq⟩ := resolution_spec hres
  cases hb : (getDetector st p.1 p.2).enabled with
  | true => rfl
  | false =>
    exfalso
    have hcfg : (getDetector st p.1 p.2).config = configOf mc p.1 p.2 :=
      ((hinv.sens p.1 ht).dets p.2 hd).config_eq
    have hen : (getDetector st p.1 p.2).enabled =
        (configOf mc p.1 p.2).enabled :=
      ((hinv.sens p.1 ht).dets p.2 hd).enabled_eq
    have hdis : (configOf mc p.1 p.2).enabled = false := by
      rw [← hen, hb]
    obtain ⟨t0, ht0, d0, hd0, hen0, hirq0⟩ := hlive
    rw [getDetector_init mc ht0 hd0] at hen0 hirq0
    have hirq' : (configOf mc p.1 p.2).irq = (configOf mc t0 d0).irq := by
      rw [← hcfg, hirq]
      exact hirq0.symm
    exact hsep p.1 ht p.2 hd t0 ht0 d0 hd0 hdis hen0 hirq'

lemma disabled_frozen {mc : ModConfig} {st : SensorManagerCtx}
    (hsep : irq_separated mc) (h : Reachable mc st) :
    ∀ t < SENSOR_TYPE_COUNT, ∀ d < DETECTORS_PER_SENSOR,
      (configOf mc t d).enabled = false →
      (getDetector st t d).current_value = 0 ∧
        (getDetector st t d).previous_value = 0 ∧
        (getDetector st t d).is_in_normal_range = true := by
  induction h with
  | init =>
    intro t ht d hd hdis
    rw [getDetector_init mc ht hd]
    exact ⟨rfl, rfl, rfl⟩
  | register st type det cb r hr ih =>
    intro t ht d hd hdis
    obtain ⟨h1, h2, h3, _, _⟩ := register_frame (reachable_inv hr) type det
      cb r t d
    obtain ⟨i1, i2, i3⟩ := ih t ht d hd hdis
    exact ⟨h1.trans i1, h2.trans i2, h3.trans i3⟩
  | unregister st type det r hr ih =>
    intro t ht d hd hdis
    obtain ⟨h1, h2, h3, _, _⟩ := unregister_frame (reachable_inv hr) type det
      r t d
    obtain ⟨i1, i2, i3⟩ := ih t ht d hd hdis
    exact ⟨h1.trans i1, h2.trans i2, h3.trans i3⟩
  | interrupt st irq hw hlive hr ih =>
    intro t ht d hd hdis
    have hinv := reachable_inv hr
    rw [sensor_interrupt_handler_state]
    cases hres : get_sensor_and_detector_from_irq st irq with
    | none => exact ih t ht d hd hdis
    | some p =>
      obtain ⟨pt, pd⟩ := p
      have hen : (getDetector st pt pd).enabled = true :=
        resolution_enabled hinv hsep hlive hres
      have hdet_dis : (getDetector st t d).enabled = false := by
        have he : (getDetector st t d).enabled = (configOf mc t d).enabled :=
          ((hinv.sens t ht).dets d hd).enabled_eq
        rw [he, hdis]
      have hts : pt < st.sensors.length := by
        rw [hinv.slen]
        exact (resolution_spec hres).1
      dsimp only
      by_cases htt : pt = t
      · subst htt
        by_cases hdd : pd = d
        · subst hdd
          rw [hen] at hdet_dis
          cases hdet_dis
        · rw [getDetector_setDetector_ne_d _ hts hdd]
          exact ih _ ht _ hd hdis
      · rw [getDetector_setDetector_ne_t _ _ _ htt]
        exact ih _ ht _ hd hdis

/-- Run law for the first threshold crossing: in-range samples, then a
first out-of-range sample, then further out-of-range samples dispatch
exactly one Exceeded notification, leaving the flag out-of-range. -/
lemma run_first_crossing {dc : DetectorContext} {w : Nat}
    {vs1 vs2 : List Nat} (hen : dc.config.threshold_enabled = true)
    (hflag : dc.is_in_normal_range = true)
    (h1 : ∀ x ∈ vs1, is_value_in_normal_range x dc.config = true)
    (hw : is_value_in_normal_range w dc.config = false)
    (h2 : ∀ x ∈ vs2, is_value_in_normal_range x dc.config = false) :
    (run_samples dc (vs1 ++ w :: vs2)).2 = [.THRESHOLD_EXCEEDED] ∧
      (run_samples dc (vs1 ++ w :: vs2)).1.is_in_normal_range = false ∧
      (run_samples dc (vs1 ++ w :: vs2)).1.config = dc.config := by
  obtain ⟨e1, e2, e3⟩ := run_samples_in_range hen hflag h1
  rw [run_samples_append, e1]
  simp only [run_samples]
  have hw' : is_value_in_normal_range w (run_samples dc vs1).1.config =
      false := by rw [e3]; exact hw
  have hexc : (detector_sample (run_samples dc vs1).1 w).2 =
      some .THRESHOLD_EXCEEDED :=
    detector_sample_exceeded (by rw [e3]; exact hen) e2 hw'
  have hcfg2 : (detector_sample (run_samples dc vs1).1 w).1.config =
      dc.config := by
    rw [detector_sample_config, e3]
  have hflag2 :
      ((detector_sample (run_samples dc vs1).1 w).1).is_in_normal_range =
        false := by
    rw [detector_sample_flag, hw']
  obtain ⟨f1, f2, f3⟩ := @run_samples_out_of_range
    (detector_sample (run_samples dc vs1).1 w).1 vs2
    (by rw [hcfg2]; exact hen) hflag2
    (fun x hx => by rw [hcfg2]; exact h2 x hx)
  rw [hexc, f1]
  exact ⟨rfl, f2, f3.trans hcfg2⟩

lemma table_register_registers {tbl : List SensorRegistration}
    {cb : Option Nat} {r det : Nat}
    (h : (table_register tbl cb r det).1 = .SUCCESS) :
    find_active_requester (table_register tbl cb r det).2 r = true := by
  obtain ⟨hf, hfill⟩ := table_register_success h
  have hcm := fill_first_free_countMatching hfill r
  rw [if_pos rfl] at hcm
  have h0 : countMatching r tbl = 0 :=
    (find_active_requester_eq_false_iff tbl r).mp hf
  cases hfb : find_active_requester (table_register tbl cb r det).2 r with
  | false =>
    have := (find_active_requester_eq_false_iff _ r).mp hfb
    omega
  | true => rfl

lemma register_wildcard_keeps_detectors {mc : ModConfig}
    {st : SensorManagerCtx} (hinv : Inv mc st) (type : Nat)
    (cb : Option Nat) (r : Nat) (t' d' : Nat) :
    getDetector (register_notification type UINT_MAX cb r st).2 t' d' =
      getDetector st t' d' := by
  by_cases g1 : SENSOR_TYPE_COUNT ≤ type ∨ cb = none
  · rw [register_notification_param1 g1]
  obtain ⟨ht', hcb⟩ := not_or.mp g1
  have ht : type < SENSOR_TYPE_COUNT := Nat.not_le.mp ht'
  rw [register_notification_wildcard ht hcb]
  by_cases hs : (table_register (getSensor st type).global_registrations
      cb r UINT_MAX).1 = .SUCCESS
  · rw [if_pos hs]
    dsimp only
    by_cases htt : type = t'
    · subst htt
      rw [getDetector_eq, getSensor_setSensor_self _
        (by rw [hinv.slen]; exact ht)]
      rfl
    · rw [getDetector_eq, getSensor_setSensor_ne _ htt, ← getDetector_eq]
  · rw [if_neg hs]

lemma register_wildcard_global {mc : ModConfig} {st : SensorManagerCtx}
    (hinv : Inv mc st) {type : Nat} {cb : Option Nat} {r : Nat}
    (ht : type < SENSOR_TYPE_COUNT) (hcb : cb ≠ none)
    (hs : (table_register (getSensor st type).global_registrations cb r
      UINT_MAX).1 = .SUCCESS) :
    (getSensor (register_notification type UINT_MAX cb r st).2
        type).global_registrations =
      (table_register (getSensor st type).global_registrations cb r
        UINT_MAX).2 := by
  rw [register_notification_wildcard ht hcb, if_pos hs]
  dsimp only
  rw [getSensor_setSensor_self _ (by rw [hinv.slen]; exact ht)]

lemma register_wildcard_status {st : SensorManagerCtx} {type : Nat}
    {cb : Option Nat} {r : Nat} (ht : type < SENSOR_TYPE_COUNT)
    (hcb : cb ≠ none) :
    (register_notification type UINT_MAX cb r st).1 =
      (table_register (getSensor st type).global_registrations cb r
        UINT_MAX).1 := by
  rw [register_notification_wildcard ht hcb]
  by_cases hs : (table_register (getSensor st type).global_registrations
      cb r UINT_MAX).1 = .SUCCESS
  · rw [if_pos hs]
  · rw [if_neg hs]

lemma unregister_direct_status {st : SensorManagerCtx} {type det r : Nat}
    (ht : type < SENSOR_TYPE_COUNT) (hd : det < DETECTORS_PER_SENSOR) :
    (unregister_notification type det r st).1 =
      (table_unregister (getDetector st type det).registrations r).1 := by
  rw [unregister_notification_direct ht hd]
  by_cases hs : (table_unregister (getDetector st type det).registrations
      r).1 = .SUCCESS
  · rw [if_pos hs]
  · rw [if_neg hs]

lemma unregister_direct_regs {mc : ModConfig} {st : SensorManagerCtx}
    (hinv : Inv mc st) {type det r : Nat} (ht : type < SENSOR_TYPE_COUNT)
    (hd : det < DETECTORS_PER_SENSOR)
    (hs : (table_unregister (getDetector st type det).registrations r).1 =
      .SUCCESS) :
    (getDetector (unregister_notification type det r st).2 type
        det).registrations =
      (table_unregister (getDetector st type det).registrations r).2 := by
  rw [unregister_notification_direct ht hd, if_pos hs]
  dsimp only
  rw [getDetector_setDetector_self _ (by rw [hinv.slen]; exact ht)
    (by rw [(hinv.sens type ht).det_len]; exact hd)]

lemma unregister_wildcard_status {st : SensorManagerCtx} {type r : Nat}
    (ht : type < SENSOR_TYPE_COUNT) :
    (unregister_notification type UINT_MAX r st).1 =
      (table_unregister (getSensor st type).global_registrations r).1 := by
  rw [unregister_notification_wildcard ht]
  by_cases hs : (table_unregister (getSensor st type).global_registrations
      r).1 = .SUCCESS
  · rw [if_pos hs]
  · rw [if_neg hs]

lemma unregister_wildcard_global {mc : ModConfig} {st : SensorManagerCtx}
    (hinv : Inv mc st) {type r : Nat} (ht : type < SENSOR_TYPE_COUNT)
    (hs : (table_unregister (getSensor st type).global_registrations r).1 =
      .SUCCESS) :
    (getSensor (unregister_notification type UINT_MAX r st).2
        type).global_registrations =
      (table_unregister (getSensor st type).global_registrations r).2 := by
  rw [unregister_notification_wildcard ht, if_pos hs]
  dsimp only
  rw [getSensor_setSensor_self _ (by rw [hinv.slen]; exact ht)]

/-! The specified claims. -/

/-- C1: for every detector and every sequence of interrupt-driven samples,
with thresholds enabled a notification is dispatched exactly when the
in-range flag changes across a sample (Exceeded entering out-of-range,
Normal returning to range): starting in-range, a run of in-range samples
yields zero notifications, the first out-of-range sample yields exactly
one Exceeded, further out-of-range samples yield zero, and the sample
returning to range yields exactly one Normal; with thresholds disabled
every sample dispatches exactly one Normal notification. -/
theorem C1_edge_triggered (dc : DetectorContext) (v w rv : Nat)
    (vs vs1 vs2 : List Nat) :
    (dc.config.threshold_enabled = true →
      ((detector_sample dc v).2 ≠ none ↔
        is_value_in_normal_range v dc.config ≠ dc.is_in_normal_range) ∧
      (dc.is_in_normal_range = true →
        is_value_in_normal_range v dc.config = false →
        (detector_sample dc v).2 = some .THRESHOLD_EXCEEDED) ∧
      (dc.is_in_normal_range = false →
        is_value_in_normal_range v dc.config = true →
        (detector_sample dc v).2 = some .THRESHOLD_NORMAL)) ∧
    (dc.config.threshold_enabled = false →
      (run_samples dc vs).2 = vs.map (fun _ => .THRESHOLD_NORMAL)) ∧
    (dc.config.threshold_enabled = true → dc.is_in_normal_range = true →
      ((∀ x ∈ vs, is_value_in_normal_range x dc.config = true) →
        (run_samples dc vs).2 = []) ∧
      ((∀ x ∈ vs1, is_value_in_normal_range x dc.config = true) →
        is_value_in_normal_range w dc.config = false →
        (∀ x ∈ vs2, is_value_in_normal_range x dc.config = false) →
        (run_samples dc (vs1 ++ w :: vs2)).2 = [.THRESHOLD_EXCEEDED] ∧
        (is_value_in_normal_range rv dc.config = true →
          (run_samples dc ((vs1 ++ w :: vs2) ++ [rv])).2 =
            [.THRESHOLD_EXCEEDED, .THRESHOLD_NORMAL]))) := by
  refine ⟨fun hen => ⟨?_, fun hwas hnow => ?_, fun hwas hnow => ?_⟩,
    fun hdis => run_samples_disabled hdis,
    fun hen hflag => ⟨fun hall => (run_samples_in_range hen hflag hall).1,
      fun h1 hw h2 => ⟨(run_first_crossing hen hflag h1 hw h2).1,
        fun hrv => ?_⟩⟩⟩
  · by_cases hsame : is_value_in_normal_range v dc.config =
        dc.is_in_normal_range
    · rw [detector_sample_enabled_none hen hsame]
      simp [hsame]
    · cases hflag : dc.is_in_normal_range with
      | true =>
        have htest : is_value_in_normal_range v dc.config = false := by
          cases h' : is_value_in_normal_range v dc.config with
          | false => rfl
          | true => rw [h', hflag] at hsame; exact absurd rfl hsame
        rw [detector_sample_exceeded hen hflag htest]
        simp [htest, hflag]
      | false =>
        have htest : is_value_in_normal_range v dc.config = true := by
          cases h' : is_value_in_normal_range v dc.config with
          | true => rfl
          | false => rw [h', hflag] at hsame; exact absurd rfl hsame
        rw [detector_sample_return_normal hen hflag htest]
        simp [htest, hflag]
  · exact detector_sample_exceeded hen hwas hnow
  · exact detector_sample_return_normal hen hwas hnow
  · obtain ⟨g1, g2, g3⟩ := run_first_crossing hen hflag h1 hw h2
    rw [run_samples_append, g1]
    simp only [run_samples]
    have hnorm : (detector_sample (run_samples dc (vs1 ++ w :: vs2)).1
        rv).2 = some .THRESHOLD_NORMAL :=
      detector_sample_return_normal (by rw [g3]; exact hen) g2
        (by rw [g3]; exact hrv)
    rw [hnorm]
    rfl

/-- Closed instance of C1, the specification scenario: thresholds 10..85,
samples 50, 95, 96, 40 produce exactly one Exceeded (at 95) and one
Normal (at 40); the in-range sample 50 alone produces nothing. -/
theorem C1_edge_triggered_witness :
    (run_samples dcEx ([50] ++ 95 :: [96] ++ [40])).2 =
      [.THRESHOLD_EXCEEDED, .THRESHOLD_NORMAL] ∧
    (run_samples dcEx [50]).2 = [] := by
  have h := (C1_edge_triggered dcEx 0 95 40 [50] [50] [96]).2.2 (by decide)
    (by decide)
  exact ⟨(h.2 (by decide) (by decide) (by decide)).2 (by decide),
    h.1 (by decide)⟩

/-- C2: a dispatched notification for (type, detector) invokes the
callback of every active detector-scope registration of that exact
detector, then every active global-scope registration of that type, in
ascending slot (list-index) order within each scope, each receiving
(type, detector, kind, value); no callback whose requester is registered
neither on this detector nor globally is invoked.  The hypotheses state
that active slots hold non-`NULL` callbacks, which `register_notification`
guarantees for every reachable table. -/
theorem C2_dispatch_order (st : SensorManagerCtx) (type det : Nat)
    (it : SensorInterruptType) (value : Nat)
    (hwfd : ∀ reg ∈ (getDetector st type det).registrations,
      reg.active = true → reg.callback.isSome = true)
    (hwfg : ∀ reg ∈ (getSensor st type).global_registrations,
      reg.active = true → reg.callback.isSome = true) :
    notify_registered_modules st type det it value =
      ((getDetector st type det).registrations.filter
          (fun reg => reg.active)).map
        (fun reg =>
          { callback := reg.callback, type := type, detector_id := det,
            interrupt_type := it, value := value,
            requester_id := reg.requester_id }) ++
      ((getSensor st type).global_registrations.filter
          (fun reg => reg.active)).map
        (fun reg =>
          { callback := reg.callback, type := type, detector_id := det,
            interrupt_type := it, value := value,
            requester_id := reg.requester_id }) ∧
    (∀ e ∈ notify_registered_modules st type det it value,
      e.type = type ∧ e.detector_id = det ∧ e.interrupt_type = it ∧
        e.value = value) ∧
    (∀ r, find_active_requester (getDetector st type det).registrations r =
        false →
      find_active_requester (getSensor st type).global_registrations r =
        false →
      ∀ e ∈ notify_registered_modules st type det it value,
        e.requester_id ≠ r) := by
  refine ⟨?_, fun e he => mem_notify_payload he, fun r hfd hfg e he hre => ?_⟩
  · have hfd' : (getDetector st type det).registrations.filter
        (fun reg => reg.active && reg.callback.isSome) =
        (getDetector st type det).registrations.filter
          (fun reg => reg.active) := by
      refine List.filter_congr (fun reg hmem => ?_)
      cases ha : reg.active with
      | false => simp
      | true => simp [hwfd reg hmem ha]
    have hfg' : (getSensor st type).global_registrations.filter
        (fun reg => reg.active && reg.callback.isSome) =
        (getSensor st type).global_registrations.filter
          (fun reg => reg.active) := by
      refine List.filter_congr (fun reg hmem => ?_)
      cases ha : reg.active with
      | false => simp
      | true => simp [hwfg reg hmem ha]
    rw [notify_registered_modules, table_invocations_eq,
      table_invocations_eq, hfd', hfg']
  · rcases mem_notify he with ⟨reg, hmem, ha, hr⟩ | ⟨reg, hmem, ha, hr⟩
    · have := (List.any_eq_false.mp hfd) reg hmem
      rw [reg_matches, ha, hr.symm, hre] at this
      simp at this
    · have := (List.any_eq_false.mp hfg) reg hmem
      rw [reg_matches, ha, hr.symm, hre] at this
      simp at this

/-- Closed instance of C2: with requesters 9 and 8 registered on
temperature detector 0 and requester 4 registered as a temperature
wildcard, a dispatch for (temperature, detector 0) invokes 9, then 8,
then 4, each with the full payload. -/
theorem C2_dispatch_order_witness :
    notify_registered_modules stExC 0 0 .THRESHOLD_EXCEEDED 95 =
      [{ callback := some 7, type := 0, detector_id := 0,
         interrupt_type := .THRESHOLD_EXCEEDED, value := 95,
         requester_id := 9 },
       { callback := some 7, type := 0, detector_id := 0,
         interrupt_type := .THRESHOLD_EXCEEDED, value := 95,
         requester_id := 8 },
       { callback := some 5, type := 0, detector_id := 0,
         interrupt_type := .THRESHOLD_EXCEEDED, value := 95,
         requester_id := 4 }] :=
  ((C2_dispatch_order stExC 0 0 .THRESHOLD_EXCEEDED 95 (by decide)
    (by decide)).1).trans (by decide)

/-- C4: in every reachable state, each detector-scope table and each
global-scope table holds at most one active registration per requester;
a duplicate register for the same (requester, type, detector) — and
likewise for the same (requester, type) wildcard — returns
AlreadyRegistered (`FWK_E_STATE`) leaving the whole context unchanged;
and a wildcard registration by a requester already registered directly is
independent: it is not rejected as a duplicate, and on success the direct
and the wildcard registration coexist. -/
theorem C4_registration_uniqueness (mc : ModConfig) (st : SensorManagerCtx)
    (h : Reachable mc st) :
    (∀ t < SENSOR_TYPE_COUNT,
      (∀ r, countMatching r (getSensor st t).global_registrations ≤ 1) ∧
      ∀ d < DETECTORS_PER_SENSOR, ∀ r,
        countMatching r (getDetector st t d).registrations ≤ 1) ∧
    (∀ type, type < SENSOR_TYPE_COUNT → ∀ det, det < DETECTORS_PER_SENSOR →
      ∀ cb r, cb ≠ none →
      find_active_requester (getDetector st type det).registrations r =
        true →
      register_notification type det cb r st = (.E_STATE, st)) ∧
    (∀ type, type < SENSOR_TYPE_COUNT → ∀ cb r, cb ≠ none →
      find_active_requester (getSensor st type).global_registrations r =
        true →
      register_notification type UINT_MAX cb r st = (.E_STATE, st)) ∧
    (∀ type, type < SENSOR_TYPE_COUNT → ∀ det, det < DETECTORS_PER_SENSOR →
      ∀ cb r, cb ≠ none →
      find_active_requester (getDetector st type det).registrations r =
        true →
      find_active_requester (getSensor st type).global_registrations r =
        false →
      hasFreeSlot (getSensor st type).global_registrations = true →
      (register_notification type UINT_MAX cb r st).1 = .SUCCESS ∧
      find_active_requester
        (getDetector (register_notification type UINT_MAX cb r st).2 type
          det).registrations r = true ∧
      find_active_requester
        (getSensor (register_notification type UINT_MAX cb r st).2
          type).global_registrations r = true) := by
  have hinv := reachable_inv h
  refine ⟨fun t ht => ⟨fun r => (hinv.sens t ht).gtable.uniq r,
      fun d hd r => ((hinv.sens t ht).dets d hd).table.uniq r⟩,
    fun type ht det hd cb r hcb hfind => ?_,
    fun type ht cb r hcb hfind => ?_,
    fun type ht det hd cb r hcb hfind hfg hfree => ?_⟩
  · rw [register_notification_direct ht hcb hd, table_register_dup hfind]
    simp
  · rw [register_notification_wildcard ht hcb, table_register_dup hfind]
    simp
  · have hs : (table_register (getSensor st type).global_registrations cb r
        UINT_MAX).1 = .SUCCESS :=
      table_register_success_of_free hfg hfree
    refine ⟨(register_wildcard_status ht hcb).trans hs, ?_, ?_⟩
    · rw [register_wildcard_keeps_detectors hinv type cb r type det]
      exact hfind
    · rw [register_wildcard_global hinv ht hcb hs]
      exact table_register_registers hs

/-- Closed instance of C4: in `stExC` requester 9 is registered on
temperature detector 0; registering it there again fails AlreadyRegistered
without touching the context, while registering it as a temperature
wildcard succeeds, after which the direct and the wildcard registration
coexist. -/
theorem C4_registration_uniqueness_witness :
    register_notification 0 0 (some 7) 9 stExC = (.E_STATE, stExC) ∧
    (register_notification 0 UINT_MAX (some 6) 9 stExC).1 = .SUCCESS ∧
    find_active_requester
      (getDetector (register_notification 0 UINT_MAX (some 6) 9 stExC).2 0
        0).registrations 9 = true ∧
    find_active_requester
      (getSensor (register_notification 0 UINT_MAX (some 6) 9 stExC).2
        0).global_registrations 9 = true := by
  have hreach : Reachable mcEx stExC :=
    Reachable.register _ 0 UINT_MAX (some 5) 4
      (Reachable.register _ 0 0 (some 7) 8
        (Reachable.register _ 0 0 (some 7) 9 Reachable.init))
  have h := C4_registration_uniqueness mcEx stExC hreach
  refine ⟨h.2.1 0 (by decide) 0 (by decide) (some 7) 9 (by decide)
    (by decide), ?_⟩
  obtain ⟨hs, hd, hg⟩ := h.2.2.2 0 (by decide) 0 (by decide) (some 6) 9
    (by decide) (by decide) (by decide) (by decide)
  exact ⟨hs, hd, hg⟩

/-- C5: in every reachable state the number of active registrations in any
table (each detector scope and each global scope) equals the recorded
active count and never exceeds the configured capacity; when every slot
of a table is active, a further register by a requester not registered
there returns OutOfSlots (`FWK_E_NOMEM`) without modifying the context;
and after one successful unregister a subsequent register by a new
requester succeeds. -/
theorem C5_capacity_law (mc : ModConfig) (st : SensorManagerCtx)
    (h : Reachable mc st) :
    (∀ t < SENSOR_TYPE_COUNT,
      ((getSensor st t).global_active_count =
        countActive (getSensor st t).global_registrations ∧
       countActive (getSensor st t).global_registrations ≤
        (getSensor st t).max_global_registrations) ∧
      ∀ d < DETECTORS_PER_SENSOR,
        (getDetector st t d).active_count =
          countActive (getDetector st t d).registrations ∧
        countActive (getDetector st t d).registrations ≤
          (getDetector st t d).max_registrations) ∧
    (∀ type, type < SENSOR_TYPE_COUNT → ∀ det, det < DETECTORS_PER_SENSOR →
      ∀ cb r, cb ≠ none →
      find_active_requester (getDetector st type det).registrations r =
        false →
      hasFreeSlot (getDetector st type det).registrations = false →
      register_notification type det cb r st = (.E_NOMEM, st)) ∧
    (∀ type, type < SENSOR_TYPE_COUNT → ∀ cb r, cb ≠ none →
      find_active_requester (getSensor st type).global_registrations r =
        false →
      hasFreeSlot (getSensor st type).global_registrations = false →
      register_notification type UINT_MAX cb r st = (.E_NOMEM, st)) ∧
    (∀ type, type < SENSOR_TYPE_COUNT → ∀ det, det < DETECTORS_PER_SENSOR →
      ∀ r r' cb, cb ≠ none →
      (unregister_notification type det r st).1 = .SUCCESS →
      find_active_requester
        (getDetector (unregister_notification type det r st).2 type
          det).registrations r' = false →
      (register_notification type det cb r'
        (unregister_notification type det r st).2).1 = .SUCCESS) ∧
    (∀ type, type < SENSOR_TYPE_COUNT → ∀ r r' cb, cb ≠ none →
      (unregister_notification type UINT_MAX r st).1 = .SUCCESS →
      find_active_requester
        (getSensor (unregister_notification type UINT_MAX r st).2
          type).global_registrations r' = false →
      (register_notification type UINT_MAX cb r'
        (unregister_notification type UINT_MAX r st).2).1 = .SUCCESS) := by
  have hinv := reachable_inv h
  refine ⟨fun t ht => ?_,
    fun type ht det hd cb r hcb hfr hfull => ?_,
    fun type ht cb r hcb hfr hfull => ?_,
    fun type ht det hd r r' cb hcb hsu hfind => ?_,
    fun type ht r r' cb hcb hsu hfind => ?_⟩
  · have hs := hinv.sens t ht
    refine ⟨⟨hs.gcount, ?_⟩, fun d hd => ?_⟩
    · rw [hs.maxg, ← hs.gtable.len]
      exact countActive_le_length _
    · have hdw := hs.dets d hd
      have h1 : (getDetector st t d).active_count =
          countActive (getDetector st t d).registrations := hdw.count
      have h2 : (getDetector st t d).max_registrations =
          mc.max_registrations_per_detector := hdw.maxr
      have h3 : (getDetector st t d).registrations.length =
          mc.max_registrations_per_detector := hdw.table.len
      refine ⟨h1, ?_⟩
      rw [h2, ← h3]
      exact countActive_le_length _
  · rw [register_notification_direct ht hcb hd,
      table_register_full hfr hfull]
    simp
  · rw [register_notification_wildcard ht hcb,
      table_register_full hfr hfull]
    simp
  · rw [unregister_direct_status ht hd] at hsu
    have hclear := table_unregister_success hsu
    have hregs := unregister_direct_regs hinv ht hd hsu
    have hfree : hasFreeSlot
        (getDetector (unregister_notification type det r st).2 type
          det).registrations = true := by
      rw [hregs]
      exact clear_first_match_hasFreeSlot hclear
    have hs := @table_register_success_of_free _ cb r' det hfind hfree
    rw [register_notification_direct ht hcb hd, if_pos hs]
    exact hs
  · rw [unregister_wildcard_status ht] at hsu
    have hclear := table_unregister_success hsu
    have hregs := unregister_wildcard_global hinv ht hsu
    have hfree : hasFreeSlot
        (getSensor (unregister_notification type UINT_MAX r st).2
          type).global_registrations = true := by
      rw [hregs]
      exact clear_first_match_hasFreeSlot hclear
    have hs := @table_register_success_of_free _ cb r' UINT_MAX hfind hfree
    rw [register_notification_wildcard ht hcb, if_pos hs]
    exact hs

/-- Closed instance of C5: temperature detector 0's table (capacity 2) is
full in `stExB`; a third distinct requester fails OutOfSlots with the
context untouched, and after unregistering requester 9 a new requester
succeeds. -/
theorem C5_capacity_law_witness :
    register_notification 0 0 (some 7) 6 stExB = (.E_NOMEM, stExB) ∧
    (register_notification 0 0 (some 7) 6
      (unregister_notification 0 0 9 stExB).2).1 = .SUCCESS ∧
    countActive (getDetector stExB 0 0).registrations ≤
      (getDetector stExB 0 0).max_registrations := by
  have hreach : Reachable mcEx stExB :=
    Reachable.register _ 0 0 (some 7) 8
      (Reachable.register _ 0 0 (some 7) 9 Reachable.init)
  have h := C5_capacity_law mcEx stExB hreach
  exact ⟨h.2.1 0 (by decide) 0 (by decide) (some 7) 6 (by decide) (by decide)
      (by decide),
    h.2.2.2.1 0 (by decide) 0 (by decide) 9 6 (some 7) (by decide)
      (by decide) (by decide),
    ((h.1 0 (by decide)).2 0 (by decide)).2⟩

/-- C8: for every value and detector configuration, the in-range test
returns true if and only if `low <= value <= high` (both bounds
inclusive) when threshold monitoring is enabled, and returns true
unconditionally when threshold monitoring is disabled. -/
theorem C8_in_range_iff (value : Nat) (config : DetectorConfig) :
    (config.threshold_enabled = true →
      (is_value_in_normal_range value config = true ↔
        config.threshold_low ≤ value ∧ value ≤ config.threshold_high)) ∧
    (config.threshold_enabled = false →
      is_value_in_normal_range value config = true) := by
  constructor <;> intro h <;> simp [is_value_in_normal_range, h]

/-- Closed instance of C8: value 50 lies in the scenario band [10, 85]. -/
theorem C8_in_range_iff_witness :
    is_value_in_normal_range 50 mcEx.temp_detectors.1 = true :=
  ((C8_in_range_iff 50 mcEx.temp_detectors.1).1 (by decide)).mpr (by decide)

/-- C10: for every sensor type and detector id (valid or not, enabled or
not), `get_sensor_value` with a `NULL` output pointer returns
`FWK_E_PARAM` before the enabled check, writes nothing through the
pointer, and (being a pure reader in this model, as in the source, which
never mutates the module context) leaves all state unchanged. -/
theorem C10_null_out_pointer (type det : Nat) (st : SensorManagerCtx) :
    get_sensor_value type det true st = (.E_PARAM, none) := by
  unfold get_sensor_value
  rw [if_pos (Or.inr (Or.inr rfl))]

/-- C9: `get_sensor_value` returns `E_PARAM` on an out-of-range type or
detector id; otherwise `E_DEVICE` on a disabled detector, writing
nothing; otherwise success with the last cached value.  (The model
function, like the C code, performs no hardware read and does not touch
the module context.) -/
theorem C9_get_sensor_value (type det : Nat) (st : SensorManagerCtx) :
    ((SENSOR_TYPE_COUNT ≤ type ∨ DETECTORS_PER_SENSOR ≤ det) →
      get_sensor_value type det false st = (.E_PARAM, none)) ∧
    (type < SENSOR_TYPE_COUNT → det < DETECTORS_PER_SENSOR →
      (getDetector st type det).enabled = false →
      get_sensor_value type det false st = (.E_DEVICE, none)) ∧
    (type < SENSOR_TYPE_COUNT → det < DETECTORS_PER_SENSOR →
      (getDetector st type det).enabled = true →
      get_sensor_value type det false st =
        (.SUCCESS, some (getDetector st type det).current_value)) := by
  refine ⟨fun h => ?_, fun h1 h2 h3 => ?_, fun h1 h2 h3 => ?_⟩
  · unfold get_sensor_value
    rcases h with h | h
    · rw [if_pos (Or.inl h)]
    · rw [if_pos (Or.inr (Or.inl h))]
  · unfold get_sensor_value
    rw [if_neg (not_or.mpr ⟨Nat.not_le.mpr h1,
      not_or.mpr ⟨Nat.not_le.mpr h2, by simp⟩⟩)]
    simp [h3]
  · unfold get_sensor_value
    rw [if_neg (not_or.mpr ⟨Nat.not_le.mpr h1,
      not_or.mpr ⟨Nat.not_le.mpr h2, by simp⟩⟩)]
    simp [h3]

/-- Closed instance of C9: invalid type fails `E_PARAM`; the disabled
voltage detector 0 fails `E_DEVICE`; the enabled temperature detector 0
returns its cached value 0. -/
theorem C9_get_sensor_value_witness :
    get_sensor_value 5 0 false stEx = (.E_PARAM, none) ∧
    get_sensor_value 1 0 false stEx = (.E_DEVICE, none) ∧
    get_sensor_value 0 0 false stEx = (.SUCCESS, some 0) :=
  ⟨(C9_get_sensor_value 5 0 stEx).1 (by decide),
    (C9_get_sensor_value 1 0 stEx).2.1 (by decide) (by decide) (by decide),
    ((C9_get_sensor_value 0 0 stEx).2.2 (by decide) (by decide)
      (by decide)).trans (by decide)⟩

/-- C6: whenever `register_notification` or `unregister_notification`
returns any non-success status, the whole module context (hence every
registration table and every active count) is exactly as before the
call; no registration of any requester is overwritten or cleared. -/
theorem C6_failure_leaves_state_unchanged (type det : Nat) (cb : Option Nat)
    (r : Nat) (st : SensorManagerCtx) :
    ((register_notification type det cb r st).1 ≠ .SUCCESS →
      (register_notification type det cb r st).2 = st) ∧
    ((unregister_notification type det r st).1 ≠ .SUCCESS →
      (unregister_notification type det r st).2 = st) := by
  constructor
  · intro h
    by_cases g1 : SENSOR_TYPE_COUNT ≤ type ∨ cb = none
    · rw [register_notification_param1 g1]
    · obtain ⟨ht', hcb⟩ := not_or.mp g1
      have ht : type < SENSOR_TYPE_COUNT := Nat.not_le.mp ht'
      by_cases gw : det = UINT_MAX
      · subst gw
        rw [register_notification_wildcard ht hcb] at h ⊢
        by_cases hs : (table_register
            (getSensor st type).global_registrations cb r UINT_MAX).1 =
            .SUCCESS
        · rw [if_pos hs] at h
          exact absurd hs h
        · rw [if_neg hs]
      · by_cases g2 : DETECTORS_PER_SENSOR ≤ det
        · rw [register_notification_param2 g1 ⟨gw, g2⟩]
        · have hd : det < DETECTORS_PER_SENSOR := Nat.not_le.mp g2
          rw [register_notification_direct ht hcb hd] at h ⊢
          by_cases hs : (table_register
              (getDetector st type det).registrations cb r det).1 = .SUCCESS
          · rw [if_pos hs] at h
            exact absurd hs h
          · rw [if_neg hs]
  · intro h
    by_cases g1 : SENSOR_TYPE_COUNT ≤ type
    · rw [unregister_notification_param1 g1]
    · have ht : type < SENSOR_TYPE_COUNT := Nat.not_le.mp g1
      by_cases gw : det = UINT_MAX
      · subst gw
        rw [unregister_notification_wildcard ht] at h ⊢
        by_cases hs : (table_unregister
            (getSensor st type).global_registrations r).1 = .SUCCESS
        · rw [if_pos hs] at h
          exact absurd hs h
        · rw [if_neg hs]
      · by_cases g2 : DETECTORS_PER_SENSOR ≤ det
        · rw [unregister_notification_param2 g1 ⟨gw, g2⟩]
        · have hd : det < DETECTORS_PER_SENSOR := Nat.not_le.mp g2
          rw [unregister_notification_direct ht hd] at h ⊢
          by_cases hs : (table_unregister
              (getDetector st type det).registrations r).1 = .SUCCESS
          · rw [if_pos hs] at h
            exact absurd hs h
          · rw [if_neg hs]

/-- Closed instance of C6: a duplicate register (AlreadyRegistered) and an
unregister of an absent requester (NotRegistered) both leave the context
untouched. -/
theorem C6_failure_witness :
    (register_notification 0 0 (some 7) 9 stExA).1 ≠ .SUCCESS ∧
    (register_notification 0 0 (some 7) 9 stExA).2 = stExA ∧
    (unregister_notification 0 1 9 stExA).1 ≠ .SUCCESS ∧
    (unregister_notification 0 1 9 stExA).2 = stExA :=
  ⟨by decide,
    (C6_failure_leaves_state_unchanged 0 0 (some 7) 9 stExA).1 (by decide),
    by decide,
    (C6_failure_leaves_state_unchanged 0 1 (some 7) 9 stExA).2 (by decide)⟩

/-- C7 (as stated) is false: in the reachable initial state, temperature
detector 0 of `mcEx` has thresholds enabled with band [10, 85], its
in-range flag defaults to true, yet the threshold test on its current
value 0 is false. -/
theorem C7_range_flag_counterexample :
    Reachable mcEx (sensor_manager_init mcEx) ∧
    (getDetector (sensor_manager_init mcEx) 0 0).config.threshold_enabled =
      true ∧
    (getDetector (sensor_manager_init mcEx) 0 0).is_in_normal_range = true ∧
    is_value_in_normal_range
      (getDetector (sensor_manager_init mcEx) 0 0).current_value
      (getDetector (sensor_manager_init mcEx) 0 0).config = false :=
  ⟨Reachable.init, by decide, by decide, by decide⟩

/-- C7 (amended): in every reachable state, a detector with thresholds
enabled has its in-range flag equal to the threshold test on its current
value, except possibly while still in the unsampled initial condition
(flag true, current and previous value 0); with thresholds disabled the
flag is always true. -/
theorem C7_range_flag_invariant (mc : ModConfig) (st : SensorManagerCtx)
    (h : Reachable mc st) :
    ∀ t < SENSOR_TYPE_COUNT, ∀ d < DETECTORS_PER_SENSOR,
      ((getDetector st t d).config.threshold_enabled = false →
        (getDetector st t d).is_in_normal_range = true) ∧
      ((getDetector st t d).config.threshold_enabled = true →
        ((getDetector st t d).is_in_normal_range =
            is_value_in_normal_range (getDetector st t d).current_value
              (getDetector st t d).config ∨
          ((getDetector st t d).is_in_normal_range = true ∧
            (getDetector st t d).current_value = 0 ∧
            (getDetector st t d).previous_value = 0))) := by
  have hinv := reachable_inv h
  intro t ht d hd
  have hdw := (hinv.sens t ht).dets d hd
  have hc : (getDetector st t d).config = configOf mc t d := hdw.config_eq
  constructor
  · intro hth
    exact hdw.flag_disabled (by rw [← hc]; exact hth)
  · intro hth
    rcases hdw.flag_enabled (by rw [← hc]; exact hth) with h1 | h1
    · left
      rw [hc]
      exact h1
    · right
      exact h1

/-- Closed instance of the amended C7: after sampling value 50 on
temperature detector 0, the flag equals the threshold test on the
current value (or the detector is still unsampled). -/
theorem C7_range_flag_invariant_witness :
    (getDetector (sensor_interrupt_handler (sensor_manager_init mcEx) 10
        50).1 0 0).is_in_normal_range =
      is_value_in_normal_range
        (getDetector (sensor_interrupt_handler (sensor_manager_init mcEx) 10
          50).1 0 0).current_value
        (getDetector (sensor_interrupt_handler (sensor_manager_init mcEx) 10
          50).1 0 0).config ∨
    ((getDetector (sensor_interrupt_handler (sensor_manager_init mcEx) 10
        50).1 0 0).is_in_normal_range = true ∧
      (getDetector (sensor_interrupt_handler (sensor_manager_init mcEx) 10
        50).1 0 0).current_value = 0 ∧
      (getDetector (sensor_interrupt_handler (sensor_manager_init mcEx) 10
        50).1 0 0).previous_value = 0) :=
  (C7_range_flag_invariant mcEx _
    (Reachable.interrupt _ 10 50 ⟨0, by decide, 0, by decide, by decide,
      by decide⟩ Reachable.init) 0 (by decide) 0 (by decide)).2 (by decide)

/-- C3 (as stated) is false: under `mcShared`, disabled temperature
detector 0 shares interrupt line 5 with enabled detector 1; line 5 is
live after start, and servicing it samples the disabled detector (its
current value becomes 42) and dispatches a notification on its behalf. -/
theorem C3_disabled_detector_counterexample :
    (configOf mcShared 0 0).enabled = false ∧
    irq_live (sensor_manager_init mcShared) 5 ∧
    Reachable mcShared (sensor_interrupt_handler stShared 5 42).1 ∧
    (getDetector (sensor_interrupt_handler stShared 5 42).1 0
      0).current_value = 42 ∧
    ((sensor_interrupt_handler stShared 5 42).2.map
      (fun e => (e.type, e.detector_id))) = [(0, 0)] := by
  have hlive : irq_live (sensor_manager_init mcShared) 5 :=
    ⟨0, by decide, 1, by decide, by decide, by decide⟩
  exact ⟨by decide, hlive,
    Reachable.interrupt _ 5 42 hlive
      (Reachable.register _ 0 UINT_MAX (some 7) 9 Reachable.init),
    by decide, by decide⟩

/-- C3 (amended): provided no disabled detector shares its interrupt line
with an enabled detector, then in every reachable state every live
interrupt line resolves to an enabled detector (so a disabled detector is
never sampled), every disabled detector keeps its initial value fields
(current 0, previous 0, flag in-range) and fails `get_sensor_value` with
DeviceUnavailable rather than any cached value, and every callback
invocation produced by the interrupt handler is on behalf of an enabled
detector. -/
theorem C3_disabled_detector_inert (mc : ModConfig)
    (hsep : irq_separated mc) (st : SensorManagerCtx)
    (h : Reachable mc st) :
    (∀ irq, irq_live (sensor_manager_init mc) irq →
      ∀ p, get_sensor_and_detector_from_irq st irq = some p →
        (getDetector st p.1 p.2).enabled = true) ∧
    (∀ t < SENSOR_TYPE_COUNT, ∀ d < DETECTORS_PER_SENSOR,
      (configOf mc t d).enabled = false →
      (getDetector st t d).current_value = 0 ∧
        (getDetector st t d).previous_value = 0 ∧
        (getDetector st t d).is_in_normal_range = true ∧
        get_sensor_value t d false st = (.E_DEVICE, none)) ∧
    (∀ irq hw, irq_live (sensor_manager_init mc) irq →
      ∀ e ∈ (sensor_interrupt_handler st irq hw).2,
        ∃ p, get_sensor_and_detector_from_irq st irq = some p ∧
          e.type = p.1 ∧ e.detector_id = p.2 ∧
          (getDetector st p.1 p.2).enabled = true) := by
  have hinv := reachable_inv h
  refine ⟨fun irq hlive p hres =>
      resolution_enabled hinv hsep hlive hres,
    fun t ht d hd hdis => ?_, fun irq hw hlive e he => ?_⟩
  · obtain ⟨h1, h2, h3⟩ := disabled_frozen hsep h t ht d hd hdis
    refine ⟨h1, h2, h3, ?_⟩
    have hen : (getDetector st t d).enabled = false := by
      have he : (getDetector st t d).enabled = (configOf mc t d).enabled :=
        ((hinv.sens t ht).dets d hd).enabled_eq
      rw [he, hdis]
    unfold get_sensor_value
    rw [if_neg (not_or.mpr ⟨Nat.not_le.mpr ht,
      not_or.mpr ⟨Nat.not_le.mpr hd, by simp⟩⟩)]
    simp [hen]
  · rw [sensor_interrupt_handler_invocations] at he
    cases hres : get_sensor_and_detector_from_irq st irq with
    | none =>
      rw [hres] at he
      simp at he
    | some p =>
      obtain ⟨pt, pd⟩ := p
      rw [hres] at he
      dsimp only at he
      cases hsamp : (detector_sample (getDetector st pt pd)
          (read_sensor_register hw)).2 with
      | none =>
        rw [hsamp] at he
        simp at he
      | some it =>
        rw [hsamp] at he
        obtain ⟨h1, h2, _, _⟩ := mem_notify_payload he
        exact ⟨(pt, pd), rfl, h1, h2,
          resolution_enabled hinv hsep hlive hres⟩

/-- Closed instance of the amended C3: under `mcEx` (pairwise-distinct
interrupt lines) the disabled voltage detector 0 holds no sample and
fails `get_sensor_value` with DeviceUnavailable. -/
theorem C3_disabled_detector_inert_witness :
    (getDetector stEx 1 0).current_value = 0 ∧
    get_sensor_value 1 0 false stEx = (.E_DEVICE, none) := by
  have hsep : irq_separated mcEx := by
    intro t ht d hd t' ht' d' hd'
    unfold SENSOR_TYPE_COUNT at ht ht'
    unfold DETECTORS_PER_SENSOR at hd hd'
    interval_cases t <;> interval_cases d <;> interval_cases t' <;>
      interval_cases d' <;> decide
  have h := C3_disabled_detector_inert mcEx hsep stEx Reachable.init
  obtain ⟨h1, h2, h3, h4⟩ := h.2.1 1 (by decide) 0 (by decide) (by decide)
  exact ⟨h1, h4⟩

end SensorManager
